import Mathlib

/-!
Verification of the refresh-orchestration engine of continuum-intelligence-v3.

The development shallowly embeds the Python sources under src/api/ into Lean:

* JSON documents (the per-ticker research files, the gathered-data bundle and
  the two LLM update payloads) are modelled by the inductive type JVal.
* Python dictionary/list/string primitives used by the code are modelled by
  small executable helpers carrying Python semantics, including the
  exceptions Python raises (AttributeError on .get of a non-dict, KeyError,
  TypeError on indexing, ...); fallible steps return Except String.
* The merge engine (refresh.py, _merge_updates) is translated block by block.
* Job tracking (RefreshJob / BatchRefreshJob), the retry loop of
  gemini_client.gemini_completion, and the provider-fallback control flow of
  _run_hypothesis_synthesis are translated as pure state/trace functions,
  with clocks and network outcomes passed in as explicit inputs.
-/

/-- A JSON value, the universe of the research documents, gathered bundles and
LLM update payloads handled by refresh.py. Object fields are kept in insertion
order, as CPython dicts do. -/
inductive JVal : Type where
  | null
  | bool (b : Bool)
  | num (q : Rat)
  | str (s : String)
  | arr (elems : List JVal)
  | obj (fields : List (String × JVal))
deriving Repr

mutual

/-- Python equality (==) restricted to JSON values: scalars compare by value,
True/False compare equal to 1/0, lists and dicts compare structurally. -/
def pyEq : JVal → JVal → Bool
  | .null, .null => true
  | .bool a, .bool b => a == b
  | .num a, .num b => a == b
  | .bool a, .num b => (if a then (1 : Rat) else 0) == b
  | .num a, .bool b => a == (if b then (1 : Rat) else 0)
  | .str a, .str b => a == b
  | .arr xs, .arr ys => pyEqList xs ys
  | .obj xs, .obj ys => pyEqFields xs ys
  | _, _ => false

def pyEqList : List JVal → List JVal → Bool
  | [], [] => true
  | x :: xs, y :: ys => pyEq x y && pyEqList xs ys
  | _, _ => false

def pyEqFields : List (String × JVal) → List (String × JVal) → Bool
  | [], [] => true
  | (k, v) :: xs, (k', v') :: ys => k == k' && pyEq v v' && pyEqFields xs ys
  | _, _ => false

end

/-- First-match lookup in an object field list (CPython dict keys are unique,
so first match is the match). -/
def jlookup : List (String × JVal) → String → Option JVal
  | [], _ => none
  | (k, v) :: rest, key => if k = key then some v else jlookup rest key

/-- Read a field of an object; none when the value is not an object or the
key is absent. Used in theorem statements to observe documents. -/
def jGet : JVal → String → Option JVal
  | .obj fs, k => jlookup fs k
  | _, _ => none

/-- Replace the value at a key, or append the binding, as CPython dict
assignment does (position of an existing key is preserved). -/
def setFields : List (String × JVal) → String → JVal → List (String × JVal)
  | [], k, v => [(k, v)]
  | (k', v') :: rest, k, v =>
      if k' = k then (k, v) :: rest else (k', v') :: setFields rest k v

/-- Functional rendering of d[k] = v for an object d. -/
def setKey : JVal → String → JVal → JVal
  | .obj fs, k, v => .obj (setFields fs k v)
  | other, _, _ => other

/-- Python d[k] = v; raises TypeError when d is not a dict. -/
def pySetItem (d : JVal) (k : String) (v : JVal) : Except String JVal :=
  match d with
  | .obj fs => .ok (.obj (setFields fs k v))
  | _ => .error "TypeError: item assignment on non-dict"

/-- Python truthiness of a JSON value. -/
def truthy : JVal → Bool
  | .null => false
  | .bool b => b
  | .num q => q != 0
  | .str s => s != ""
  | .arr xs => !xs.isEmpty
  | .obj fs => !fs.isEmpty

/-- Python d.get(k, default); raises AttributeError when d is not a dict. -/
def pyGetD (d : JVal) (k : String) (dflt : JVal) : Except String JVal :=
  match d with
  | .obj fs => .ok ((jlookup fs k).getD dflt)
  | _ => .error "AttributeError: get on non-dict"

/-- Python d[k] for a string key: KeyError when absent, TypeError when d is
not a dict. -/
def pyIndex (d : JVal) (k : String) : Except String JVal :=
  match d with
  | .obj fs =>
      match jlookup fs k with
      | some v => .ok v
      | none => .error "KeyError"
  | _ => .error "TypeError: string index on non-dict"

/-- Lowercase a character list (String.toLower, char by char). -/
def lowerCL (cs : List Char) : List Char := cs.map Char.toLower

/-- Lowercase a string; kernel-reducible rendering of str.lower(). -/
def strLower (s : String) : String := ⟨lowerCL s.data⟩

/-- Python v.lower(): AttributeError when v is not a string. -/
def pyLower : JVal → Except String String
  | .str s => .ok (strLower s)
  | _ => .error "AttributeError: lower on non-str"

/-- Char-list test that the first list leads the second (str.startswith). -/
def leadsCL : List Char → List Char → Bool
  | [], _ => true
  | _ :: _, [] => false
  | a :: as, b :: bs => a == b && leadsCL as bs

/-- Char-list substring test. -/
def subCL (needle : List Char) : List Char → Bool
  | [] => leadsCL needle []
  | c :: rest => leadsCL needle (c :: rest) || subCL needle rest

/-- Python needle in hay for strings. -/
def strHas (hay needle : String) : Bool := subCL needle.data hay.data

/-- Python membership test of a string key: dict key lookup, list element
equality, substring test on strings, TypeError otherwise. -/
def pyContains (d : JVal) (k : String) : Except String Bool :=
  match d with
  | .obj fs => .ok ((jlookup fs k).isSome)
  | .arr xs => .ok (xs.any (fun x => pyEq x (.str k)))
  | .str s => .ok (strHas s k)
  | _ => .error "TypeError: argument not iterable"

/-- Python for-loop iteration over a JSON value. Iterating a list yields its
elements. Every loop in _merge_updates immediately calls .get on the loop
variable, so iterating a nonempty dict (which yields string keys) or a
nonempty string (which yields characters) faults at once with
AttributeError; that fault is surfaced here directly. Empty dicts and empty
strings iterate zero times without fault. -/
def pyIterList : JVal → Except String (List JVal)
  | .arr xs => .ok xs
  | .obj [] => .ok []
  | .str s => if s == "" then .ok [] else .error "AttributeError: get on str element"
  | .obj (_ :: _) => .error "AttributeError: get on str key"
  | _ => .error "TypeError: not iterable"

/-- Decimal rendering of an integer. -/
def intRepr (n : Int) : String := toString n

/-- Python str(v) as used on price values and in f-string interpolation.
Numeric printing is rendered as the exact value of the modelled rational
(integer, or numerator/denominator); container printing is abbreviated.
No proved claim inspects these strings. -/
def pyStr : JVal → String
  | .null => "None"
  | .bool b => if b then "True" else "False"
  | .num q => if q.den = 1 then intRepr q.num else intRepr q.num ++ "/" ++ intRepr q.den
  | .str s => s
  | .arr _ => "[list]"
  | .obj _ => "[dict]"

/-- Two-decimal fixed-point rendering of a rational, the model of the Python
format spec .2f (rounding of the exact value to cents, half away from zero;
CPython rounds the binary float half-to-even, a difference no proved claim
observes since no claim inspects formatted prices). -/
def fixed2 (q : Rat) : String :=
  let c : Int := (q * 100 + 1 / 2).floor
  let n := c.natAbs
  let ip := n / 100
  let fr := n % 100
  (if c < 0 then "-" else "") ++ toString ip ++ "." ++
    (if fr < 10 then "0" else "") ++ toString fr

/-- Python format(v, ".2f") on a JSON value: only numbers format, anything
else raises (ValueError for strings, TypeError otherwise). -/
def pyFixed2 : JVal → Except String String
  | .num q => .ok (fixed2 q)
  | .str _ => .error "ValueError: unknown format code f for str"
  | _ => .error "TypeError: unsupported format"

/-- Digits of a char list interpreted in base 10, none when a non-digit
appears or the list is empty. -/
def digitsVal : List Char → Option Nat
  | [] => none
  | cs => cs.foldl (fun acc c =>
      match acc with
      | none => none
      | some n => if c.isDigit then some (n * 10 + (c.toNat - 48)) else none)
      (some 0)

/-- Parse a decimal literal (optional sign, digits, optional fractional
part), the float() grammar restricted to the forms that occur in price data;
exponents, infinities and surrounding whitespace are not modelled, and no
proved claim depends on them. -/
def parseDec (s : String) : Option Rat :=
  let cs := s.data
  let (sgn, body) :=
    match cs with
    | '-' :: rest => ((-1 : Rat), rest)
    | '+' :: rest => ((1 : Rat), rest)
    | _ => ((1 : Rat), cs)
  let ipart := body.takeWhile (fun c => c != '.')
  let rest := body.dropWhile (fun c => c != '.')
  match rest with
  | [] =>
      match digitsVal ipart with
      | some n => some (sgn * n)
      | none => none
  | _ :: fpart =>
      if fpart.isEmpty then
        match digitsVal ipart with
        | some n => some (sgn * n)
        | none => none
      else if ipart.isEmpty then
        match digitsVal fpart with
        | some f => some (sgn * f / ((10 : Rat) ^ fpart.length))
        | none => none
      else
        match digitsVal ipart, digitsVal fpart with
        | some n, some f => some (sgn * (n + (f : Rat) / ((10 : Rat) ^ fpart.length)))
        | _, _ => none

/-- Python float(v): numbers pass through, booleans coerce, strings parse
(ValueError on failure), anything else raises TypeError. -/
def pyFloat : JVal → Except String Rat
  | .num q => .ok q
  | .bool b => .ok (if b then 1 else 0)
  | .str s =>
      match parseDec s with
      | some q => .ok q
      | none => .error "ValueError: could not convert string to float"
  | _ => .error "TypeError: float argument"

/-!
The merge engine: refresh.py lines 763-894, `_merge_updates`. The Python
function mutates a deep copy of the research document; here the copy is the
functional state threaded through the blocks. Each block below is named for
the comment that heads it in the source. The wall-clock strings computed at
line 771 (now) and line 892 (the ISO timestamp) are explicit inputs.
-/

/-- One pass of the heroMetrics loop body (refresh.py 781-785): rows whose
label is a known price label get a freshly formatted value. -/
def updateHeroMetric (pd m : JVal) : Except String JVal := do
  let lbl ← pyGetD m "label" .null
  if pyEq lbl (.str "Price") || pyEq lbl (.str "Share Price") ||
      pyEq lbl (.str "Current Price") then do
    let pv ← pyIndex pd "price"
    let s ← pyFixed2 pv
    pySetItem m "value" (.str ("A$" ++ s))
  else if pyEq lbl (.str "52-Week Range") then do
    let lo ← pyGetD pd "low_52w" (.num 0)
    let hi ← pyGetD pd "high_52w" (.num 0)
    let sl ← pyFixed2 lo
    let sh ← pyFixed2 hi
    pySetItem m "value" (.str ("A$" ++ sl ++ " - A$" ++ sh))
  else pure m

/-- Price update block (refresh.py 773-789): skipped entirely when the
gathered price data carries an "error" key; otherwise price, currency,
matching heroMetrics rows and the price history are overwritten. -/
def merge_price_block (updated pd : JVal) : Except String JVal := do
  let hasErr ← pyContains pd "error"
  if hasErr then
    pure updated
  else do
    let dflt ← pyGetD updated "price" (.str "")
    let pv ← pyGetD pd "price" dflt
    let u1 ← pySetItem updated "price" (.str (pyStr pv))
    let cur ← pyGetD pd "currency" (.str "A$")
    let u2 ← pySetItem u1 "currency" cur
    let u3 ←
      match jGet u2 "heroMetrics" with
      | none => pure u2
      | some hm => do
          let ms ← pyIterList hm
          let ms' ← ms.mapM (updateHeroMetric pd)
          match hm with
          | .arr _ => pySetItem u2 "heroMetrics" (.arr ms')
          | _ => pure u2
    let ph ← pyGetD pd "price_history" .null
    if truthy ph then pySetItem u3 "priceHistory" ph else pure u3

/-- Python isinstance(v, dict). -/
def isDictB : JVal → Bool
  | .obj _ => true
  | _ => false

/-- Conditional field write, the pattern if update.get(k): target[k] = value
recurring throughout _merge_updates. -/
def set_if_truthy (d : JVal) (k : String) (v : JVal) : Except String JVal :=
  if truthy v then pySetItem d k v else pure d

/-- Inner card-matching loop (refresh.py 798-804): find the first existing
card with the given number, replace its finding/tension when the update
supplies them, stop at the first match. -/
def updFirstCard : List JVal → JVal → JVal → JVal → Except String (List JVal)
  | [], _, _, _ => pure []
  | c :: rest, n, uf, ut => do
      let cn ← pyGetD c "number" .null
      if pyEq cn n then do
        let c1 ← set_if_truthy c "finding" uf
        let c2 ← set_if_truthy c1 "tension" ut
        pure (c2 :: rest)
      else do
        let rest' ← updFirstCard rest n uf ut
        pure (c :: rest')

/-- One update card of the evidence loop (refresh.py 794-804): cards without
a truthy material_change flag are skipped before the inner loop runs. The
accumulator is the current cards value; the inner iteration (and hence any
iteration fault) happens only for material cards, as in the source. -/
def applyEvidenceCard (acc uc : JVal) : Except String JVal := do
  let mc ← pyGetD uc "material_change" .null
  if truthy mc then
    match acc with
    | .arr xs => do
        let n ← pyGetD uc "number" .null
        let uf ← pyGetD uc "updated_finding" .null
        let ut ← pyGetD uc "updated_tension" .null
        let xs' ← updFirstCard xs n uf ut
        pure (.arr xs')
    | other => do
        let _ ← pyIterList other
        pure other
  else pure acc

/-- Evidence card update block (refresh.py 791-804). The Python loop mutates
the document's card list through the existing_cards alias; functionally the
new list is written back exactly when the alias chain reached a real list in
the document (otherwise the mutated list was a fresh default and is
discarded, as in the source). -/
def merge_evidence_block (updated evidenceUpdate : JVal) : Except String JVal := do
  let evCardsV ← pyGetD evidenceUpdate "cards" (.arr [])
  let evObj ← pyGetD updated "evidence" (.obj [])
  let cardsV ← pyGetD evObj "cards" (.arr [])
  let updList ← pyIterList evCardsV
  let newCardsV ← updList.foldlM applyEvidenceCard cardsV
  match cardsV with
  | .arr _ =>
      if (jGet updated "evidence").isSome && (jGet evObj "cards").isSome then do
        let ev' ← pySetItem evObj "cards" newCardsV
        pySetItem updated "evidence" ev'
      else pure updated
  | _ => pure updated

/-- Direction lookup (refresh.py 819-824): dict.get on the literal dir_map
with a default of the steady pair; unhashable keys (lists, dicts) raise
TypeError as dict lookup does in Python. -/
def dirMapGet : JVal → Except String (String × String)
  | .str s =>
      if s = "up" then .ok ("&uarr;", "Rising")
      else if s = "down" then .ok ("&darr;", "Falling")
      else .ok ("&rarr;", "Steady")
  | .arr _ => .error "TypeError: unhashable type"
  | .obj _ => .error "TypeError: unhashable type"
  | _ => .ok ("&rarr;", "Steady")

/-- Score write of the hypothesis loop (refresh.py 812-814): score and
scoreWidth are both set when the update supplies a truthy updated_score. -/
def hyp_score_step (h us : JVal) : Except String JVal :=
  if truthy us then do
    let a ← pySetItem h "score" us
    pySetItem a "scoreWidth" us
  else pure h

/-- Scan for the first hypothesis whose lowercased tier equals the update
tier (refresh.py 810-816): on the match, score and scoreWidth are set when
the update supplies a truthy updated_score, the description when it supplies
a truthy updated_description; the scan stops there (break). -/
def scanHypList : List JVal → String → JVal → JVal → Except String (Option (List JVal))
  | [], _, _, _ => pure none
  | h :: rest, tier, us, ud => do
      let htv ← pyGetD h "tier" (.str "")
      let ht ← pyLower htv
      if ht = tier then do
        let h1 ← hyp_score_step h us
        let h2 ← set_if_truthy h1 "description" ud
        pure (some (h2 :: rest))
      else do
        let r ← scanHypList rest tier us ud
        pure (r.map (h :: ·))

/-- One verdict score row (refresh.py 826-830): rows whose lowercased label
starts with the first two characters of the tier get score (key-presence
default, not truthiness), dirArrow and dirText rewritten. -/
def updateOneScore (tier : String) (hu : JVal) (arrow dirText : String)
    (vs : JVal) : Except String JVal := do
  let lv ← pyGetD vs "label" (.str "")
  let ls ← pyLower lv
  if leadsCL (tier.data.take 2) ls.data then do
    let oldScore ← pyGetD vs "score" .null
    let newScore := (jGet hu "updated_score").getD oldScore
    let v1 ← pySetItem vs "score" newScore
    let v2 ← pySetItem v1 "dirArrow" (.str arrow)
    pySetItem v2 "dirText" (.str dirText)
  else pure vs

/-- Verdict-scores sub-block (refresh.py 825-830), run only on a tier match:
guarded by "verdict" in updated and "scores" in updated["verdict"]; every
matching row is rewritten (no break in this loop). -/
def updateVerdictScores (updated : JVal) (tier : String) (hu : JVal)
    (arrow dirText : String) : Except String JVal := do
  match jGet updated "verdict" with
  | none => pure updated
  | some v => do
      let hasScores ← pyContains v "scores"
      if hasScores then do
        let scoresV ← pyIndex v "scores"
        match scoresV with
        | .arr vss => do
            let vss' ← vss.mapM (updateOneScore tier hu arrow dirText)
            let v' ← pySetItem v "scores" (.arr vss')
            pySetItem updated "verdict" v'
        | other => do
            let _ ← pyIterList other
            pure updated
      else pure updated

/-- One update entry of the hypothesis loop (refresh.py 808-831). -/
def applyHypothesisUpdate (updated hu : JVal) : Except String JVal := do
  let tv ← pyGetD hu "tier" (.str "")
  let tier ← pyLower tv
  let hypsV ← pyGetD updated "hypotheses" (.arr [])
  match hypsV with
  | .arr hl => do
      let us ← pyGetD hu "updated_score" .null
      let ud ← pyGetD hu "updated_description" .null
      match ← scanHypList hl tier us ud with
      | none => pure updated
      | some newList => do
          let u1 ← pySetItem updated "hypotheses" (.arr newList)
          let dv ← pyGetD hu "direction" (.str "steady")
          let ad ← dirMapGet dv
          updateVerdictScores u1 tier hu ad.1 ad.2
  | other => do
      let _ ← pyIterList other
      pure updated

/-- Hypothesis weight update block (refresh.py 806-831). -/
def merge_hypotheses_block (updated hypothesisUpdate : JVal) : Except String JVal := do
  let husV ← pyGetD hypothesisUpdate "hypotheses" (.arr [])
  let hus ← pyIterList husV
  hus.foldlM applyHypothesisUpdate updated

/-- Write one field of the hero dict through updated["hero"][k] = v
(refresh.py 836-846): indexing then item assignment, TypeError when the hero
value is not a dict. -/
def hero_set_field (updated : JVal) (k : String) (v : JVal) : Except String JVal := do
  let hero ← pyIndex updated "hero"
  let hero' ← pySetItem hero k v
  pySetItem updated "hero" hero'

/-- The embedded_thesis / skew_description guard of refresh.py 835-838. -/
def hero_field_step (updated : JVal) (k : String) (v : JVal) : Except String JVal :=
  if truthy v then hero_set_field updated k v else pure updated

/-- The next_decision_point rewrite of refresh.py 839-847: replaced wholesale
when the update carries a truthy dict with a truthy event. -/
def hero_ndp_step (updated ndp : JVal) : Except String JVal :=
  if truthy ndp && isDictB ndp then do
    let ev ← pyGetD ndp "event" .null
    if truthy ev then do
      let dt ← pyGetD ndp "date" (.str "TBC")
      let mt ← pyGetD ndp "metric" (.str "")
      let th ← pyGetD ndp "thresholds" (.str "")
      hero_set_field updated "next_decision_point"
        (.obj [("event", ev), ("date", dt), ("metric", mt), ("thresholds", th)])
    else pure updated
  else pure updated

/-- Hero section rewrites (refresh.py 833-847). -/
def merge_hero_block (updated hypothesisUpdate : JVal) : Except String JVal := do
  let hasHero ← pyContains updated "hero"
  if hasHero then do
    let et ← pyGetD hypothesisUpdate "embedded_thesis" .null
    let u1 ← hero_field_step updated "embedded_thesis" et
    let sd ← pyGetD hypothesisUpdate "skew_description" .null
    let u2 ← hero_field_step u1 "skew_description" sd
    let ndp ← pyGetD hypothesisUpdate "next_decision_point" .null
    hero_ndp_step u2 ndp
  else pure updated

/-- The theNarrative rewrite of refresh.py 851-863: a truthy
narrative_rewrite replaces the narrative wholesale behind a timestamp
marker; otherwise a truthy narrative_update is prepended (with the marker)
to the existing text. -/
def narrative_rewrite_step (hypothesisUpdate narrV : JVal) (now : String) :
    Except String JVal := do
  let nr ← pyGetD hypothesisUpdate "narrative_rewrite" .null
  if truthy nr then
    pySetItem narrV "theNarrative"
      (.str ("<strong>[Updated " ++ now ++ "]</strong> " ++ pyStr nr))
  else do
    let nu ← pyGetD hypothesisUpdate "narrative_update" .null
    if truthy nu then do
      let ex ← pyGetD narrV "theNarrative" (.str "")
      pySetItem narrV "theNarrative"
        (.str ("<strong>[Updated " ++ now ++ "]</strong> " ++ pyStr nu ++
          "<br><br>" ++ pyStr ex))
    else pure narrV

/-- The priceImplication label refresh of refresh.py 870-875, applied when
gathered price data has a truthy price. -/
def price_label_step (piv1 priceStr : JVal) : Except String JVal :=
  if truthy priceStr then do
    let q ← pyFloat priceStr
    pySetItem piv1 "label" (.str ("Embedded Assumptions at A$" ++ fixed2 q))
  else pure piv1

/-- The priceImplication content/label update of refresh.py 865-875, applied
only when the stored priceImplication is a dict. -/
def narrative_pi_step (hypothesisUpdate pd narr1 : JVal) : Except String JVal := do
  let pi ← pyGetD hypothesisUpdate "price_implication" .null
  if truthy pi then do
    let piv ← pyGetD narr1 "priceImplication" .null
    match piv with
    | .obj _ => do
        let piv1 ← pySetItem piv "content" pi
        let priceStr ← pyGetD pd "price" .null
        let piv2 ← price_label_step piv1 priceStr
        pySetItem narr1 "priceImplication" piv2
    | _ => pure narr1
  else pure narr1

/-- Full narrative rewrite block (refresh.py 849-883). The narrative dict is
threaded functionally and written back once; the source mutates it through
the updated["narrative"] alias, which is observationally the same on
successful runs. -/
def merge_narrative_block (updated hypothesisUpdate pd : JVal) (now : String) :
    Except String JVal := do
  let hasNarr ← pyContains updated "narrative"
  if hasNarr then do
    let narrV ← pyIndex updated "narrative"
    match narrV with
    | .obj _ => do
        let narr1 ← narrative_rewrite_step hypothesisUpdate narrV now
        let narr2 ← narrative_pi_step hypothesisUpdate pd narr1
        let ec ← pyGetD hypothesisUpdate "evidence_check" .null
        let narr3 ← set_if_truthy narr2 "evidenceCheck" ec
        let ns ← pyGetD hypothesisUpdate "narrative_stability" .null
        let narr4 ← set_if_truthy narr3 "narrativeStability" ns
        pySetItem updated "narrative" narr4
    | _ => pure updated
  else pure updated

/-- Verdict text update block (refresh.py 885-888). -/
def merge_verdict_block (updated hypothesisUpdate : JVal) : Except String JVal := do
  let vu ← pyGetD hypothesisUpdate "verdict_update" .null
  if truthy vu then do
    let hasV ← pyContains updated "verdict"
    if hasV then do
      let v ← pyIndex updated "verdict"
      match v with
      | .obj _ => do
          let v' ← pySetItem v "text" vu
          pySetItem updated "verdict" v'
      | _ => pure updated
    else pure updated
  else pure updated

/-- The merge engine, refresh.py lines 763-894 (_merge_updates): deep-copy of
the research document threaded through the price, evidence, hypothesis, hero,
narrative and verdict blocks, with the two timestamp fields written last.
The clock strings now (line 771) and nowIso (line 892) are explicit inputs. -/
def merge_updates (research gathered evidenceUpdate hypothesisUpdate : JVal)
    (now nowIso : String) : Except String JVal := do
  let pd ← pyGetD gathered "price_data" (.obj [])
  let u1 ← merge_price_block research pd
  let u2 ← merge_evidence_block u1 evidenceUpdate
  let u3 ← merge_hypotheses_block u2 hypothesisUpdate
  let u4 ← merge_hero_block u3 hypothesisUpdate
  let u5 ← merge_narrative_block u4 hypothesisUpdate pd now
  let u6 ← merge_verdict_block u5 hypothesisUpdate
  let u7 ← pySetItem u6 "date" (.str now)
  pySetItem u7 "_lastRefreshed" (.str nowIso)

/-!
Job tracking: refresh.py lines 36-98. RefreshJob is the per-ticker state
machine; started_at / completed_at / result do not affect any derived view
below and are elided from the state. progress_pct and stage_label are the
derived views of lines 55-73.
-/

/-- The RefreshJob dataclass (refresh.py 45-53), the fields the derived
views read. -/
structure RefreshJob where
  ticker : String
  status : String
  stage_index : Int
  error : Option String
deriving Repr, DecidableEq

/-- Derived progress view (refresh.py 55-61): 100 on completed, 0 on failed,
otherwise stage_index * 25 capped at 100. -/
def RefreshJob.progress_pct (j : RefreshJob) : Int :=
  if j.status = "completed" then 100
  else if j.status = "failed" then 0
  else min (j.stage_index * 25) 100

/-- Non-terminal test used by is_running (refresh.py 96-98): status not in
(completed, failed). -/
def RefreshJob.nonTerminal (j : RefreshJob) : Bool :=
  j.status != "completed" && j.status != "failed"

/-- The successive job states written by run_refresh (refresh.py 500-569):
the freshly created job (status gathering_data, stage_index 0), the four
stage transitions, and the completed state. -/
def stageStates (t : String) : List RefreshJob :=
  [ ⟨t, "gathering_data", 0, none⟩
  , ⟨t, "gathering_data", 1, none⟩
  , ⟨t, "specialist_analysis", 2, none⟩
  , ⟨t, "hypothesis_synthesis", 3, none⟩
  , ⟨t, "writing_results", 4, none⟩
  , ⟨t, "completed", 5, none⟩ ]

/-- The observable job-state trace of one run_refresh execution
(refresh.py 500-576). failAfter = none is the successful run; failAfter =
some k is the run whose body raises after the k-th state was written, upon
which the except branch (571-575) sets status failed and keeps stage_index
(the k-th state has stage_index k). -/
def runRefreshTrace (t : String) (failAfter : Option (Fin 5)) (msg : String) :
    List RefreshJob :=
  match failAfter with
  | none => stageStates t
  | some k =>
      ((stageStates t).take (k.val + 1)) ++ [⟨t, "failed", (k.val : Int), some msg⟩]

/-!
Batch coordination: refresh.py lines 105-164 and 290-348. Snapshot dicts in
per_ticker_status always carry a status field; the other snapshot fields do
not enter the derived counts and are elided.
-/

/-- One per-ticker snapshot stored in BatchRefreshJob.per_ticker_status
(refresh.py job.to_dict() or the literal dicts of lines 297-306, 322-331). -/
structure TickerSnapshot where
  ticker : String
  status : String
deriving Repr, DecidableEq

/-- The BatchRefreshJob dataclass (refresh.py 105-113), the fields the
derived views read. -/
structure BatchRefreshJob where
  batch_id : String
  tickers : List String
  status : String
  per_ticker_status : List (String × TickerSnapshot)
  errors : List (String × String)
deriving Repr, DecidableEq

/-- Count of per-ticker snapshots with status completed (refresh.py 115-119). -/
def BatchRefreshJob.total_completed (b : BatchRefreshJob) : Nat :=
  (b.per_ticker_status.map (fun p => p.2)).countP (fun s => s.status = "completed")

/-- Count of per-ticker snapshots with status failed (refresh.py 121-125). -/
def BatchRefreshJob.total_failed (b : BatchRefreshJob) : Nat :=
  (b.per_ticker_status.map (fun p => p.2)).countP (fun s => s.status = "failed")

/-- Overall progress (refresh.py 135-140): 0 when the ticker list is empty,
otherwise int(done / len(tickers) * 100), rendered here as exact natural
floor division (the float expression and the exact floor agree on the
bounds every claim states). -/
def BatchRefreshJob.progress_pct (b : BatchRefreshJob) : Nat :=
  if b.tickers.isEmpty then 0
  else (b.total_completed + b.total_failed) * 100 / b.tickers.length

/-- Terminal batch status derivation, refresh.py 335-340. -/
def finalizeBatchStatus (b : BatchRefreshJob) : String :=
  if b.total_failed = 0 then "completed"
  else if b.total_completed = 0 then "failed"
  else "partially_failed"

/-!
Completion-client retry loop: gemini_client.py lines 80-137
(gemini_completion). One attempt is abstracted to its outcome: the API call
and JSON decode succeeded, the decode failed (json_mode), or the call raised
an exception carrying a message. The classification of exception messages
and the backoff arithmetic are taken verbatim from the source.
-/

/-- Outcome of one generate_content attempt. -/
inductive GeminiStep where
  | ok
  | jsonErr
  | exc (msg : String)
deriving Repr, DecidableEq

/-- How gemini_completion terminates. -/
inductive GeminiResult where
  | parsed
  | valueError
  | providerError (msg : String)
  | runtimeError
deriving Repr, DecidableEq

/-- Rate-limit / quota classification (gemini_client.py 116): 429 anywhere
in the message, or quota / rate in its lowercasing. -/
def isRateLimitMsg (m : String) : Bool :=
  strHas m "429" || strHas (strLower m) "quota" || strHas (strLower m) "rate"

/-- Transient-server classification (gemini_client.py 125): 500 or 503 in
the message. -/
def isServerErrMsg (m : String) : Bool := strHas m "500" || strHas m "503"

/-- Rate-limit backoff (gemini_client.py 117): min(2 ** attempt * 2, 30). -/
def rateWait (attempt : Nat) : Nat := min (2 ^ attempt * 2) 30

/-- Trace of one gemini_completion run: how it ends, how many API calls were
made, which sleeps were taken (in seconds, in order). -/
structure GeminiRun where
  result : GeminiResult
  calls : Nat
  sleeps : List Nat
deriving Repr, DecidableEq

/-- The retry loop body (gemini_client.py 81-135): for attempt in
range(max_retries + 1). A JSON decode error continues without sleeping and
raises ValueError on the final attempt; a rate-limit error sleeps the capped
exponential backoff and continues (even on the final attempt); a 500/503
error sleeps 1 second and continues (even on the final attempt); any other
error sleeps 1 second and continues unless it is the final attempt, where the
underlying error is re-raised. Falling off the loop reaches line 137 and
raises RuntimeError. -/
def geminiLoop (steps : Nat → GeminiStep) (maxRetries : Nat) :
    (fuel : Nat) → (attempt : Nat) → GeminiRun
  | 0, _ => ⟨.runtimeError, 0, []⟩
  | fuel + 1, attempt =>
    match steps attempt with
    | .ok => ⟨.parsed, 1, []⟩
    | .jsonErr =>
        if attempt < maxRetries then
          let r := geminiLoop steps maxRetries fuel (attempt + 1)
          ⟨r.result, r.calls + 1, r.sleeps⟩
        else ⟨.valueError, 1, []⟩
    | .exc m =>
        if isRateLimitMsg m then
          let r := geminiLoop steps maxRetries fuel (attempt + 1)
          ⟨r.result, r.calls + 1, rateWait attempt :: r.sleeps⟩
        else if isServerErrMsg m then
          let r := geminiLoop steps maxRetries fuel (attempt + 1)
          ⟨r.result, r.calls + 1, 1 :: r.sleeps⟩
        else if attempt < maxRetries then
          let r := geminiLoop steps maxRetries fuel (attempt + 1)
          ⟨r.result, r.calls + 1, 1 :: r.sleeps⟩
        else ⟨.providerError m, 1, []⟩

/-- gemini_completion's error-handling behaviour as a function of the
per-attempt outcomes and the max_retries parameter (default 2 in the
source). -/
def gemini_completion (steps : Nat → GeminiStep) (maxRetries : Nat) : GeminiRun :=
  geminiLoop steps maxRetries (maxRetries + 1) 0

/-!
Synthesis-stage provider fallback: refresh.py lines 716-756
(_run_hypothesis_synthesis). The try block either returns the parsed payload
of the chosen provider or, on any exception, returns the degraded payload of
lines 751-756. The provider calls (network, text assembly, fence stripping,
json.loads) are collapsed to their outcome, since every exception inside
them lands in the same except branch.
-/

/-- The degraded payload built at refresh.py 751-756. -/
def degradedSynthesisPayload (e : String) : JVal :=
  .obj [ ("hypotheses", .arr [])
       , ("narrative_update", .str ("Synthesis unavailable: " ++ e))
       , ("verdict_update", .null)
       , ("key_catalyst", .null) ]

/-- Control flow of _run_hypothesis_synthesis (refresh.py 716-756): with no
Anthropic key configured (falsy, modelled as the empty string) the Gemini
fallback outcome is used, otherwise the Claude outcome; a raised error from
either provider is absorbed into the degraded payload. The function always
returns a payload and never raises. -/
def run_hypothesis_synthesis (anthropicApiKey : String)
    (geminiOutcome claudeOutcome : Except String JVal) : JVal :=
  let attempt := if anthropicApiKey = "" then geminiOutcome else claudeOutcome
  match attempt with
  | .ok v => v
  | .error e => degradedSynthesisPayload e

/-!
Proof infrastructure: inversion of the Except plumbing and the dictionary
write primitives.
-/

/-- Read a nested field path of a document; used in theorem statements. -/
def jGetPath : JVal → List String → Option JVal
  | d, [] => some d
  | d, k :: ks =>
      match jGet d k with
      | some v => jGetPath v ks
      | none => none

/-- First element of an optional array; used in theorem statements. -/
def jFirst : Option JVal → Option JVal
  | some (.arr (x :: _)) => some x
  | _ => none

/-- The document fields outside a set of keys are untouched. -/
def agreesOutside (ks : List String) (d out : JVal) : Prop :=
  ∀ k, k ∉ ks → jGet out k = jGet d k

theorem except_bind_ok {α β : Type} {mx : Except String α} {f : α → Except String β}
    {b : β} : (mx >>= f) = .ok b ↔ ∃ a, mx = .ok a ∧ f a = .ok b := by
  cases mx with
  | ok a => simp [Bind.bind, Except.bind]
  | error e => simp [Bind.bind, Except.bind]

theorem except_pure_ok {α : Type} {a b : α} :
    (pure a : Except String α) = .ok b ↔ a = b := by
  simp [pure, Except.pure]

theorem pySetItem_ok {d out : JVal} {k : String} {v : JVal} :
    pySetItem d k v = .ok out ↔ ∃ fs, d = .obj fs ∧ out = .obj (setFields fs k v) := by
  cases d <;> simp [pySetItem, eq_comm]

theorem pyGetD_ok {d x dflt : JVal} {k : String} :
    pyGetD d k dflt = .ok x ↔ ∃ fs, d = .obj fs ∧ x = (jlookup fs k).getD dflt := by
  cases d <;> simp [pyGetD, eq_comm]

theorem jlookup_setFields (fs : List (String × JVal)) (k k' : String) (v : JVal) :
    jlookup (setFields fs k v) k' = if k' = k then some v else jlookup fs k' := by
  induction fs with
  | nil =>
      by_cases h : k' = k
      · subst h; simp [setFields, jlookup]
      · have h' : ¬(k = k') := fun hc => h hc.symm
        simp [setFields, jlookup, h, h']
  | cons p rest ih =>
      obtain ⟨k0, v0⟩ := p
      by_cases h0 : k0 = k
      · subst h0
        by_cases h1 : k' = k0
        · subst h1; simp [setFields, jlookup]
        · have h1' : ¬(k0 = k') := fun hc => h1 hc.symm
          simp [setFields, jlookup, h1, h1']
      · by_cases h1 : k' = k
        · subst h1
          have h0' : ¬(k0 = k') := h0
          simp [setFields, jlookup, h0, h0', ih]
        · by_cases h2 : k0 = k'
          · simp [setFields, jlookup, h0, h1, h2]
          · simp [setFields, jlookup, h0, h1, h2, ih]

theorem setFields_self {fs : List (String × JVal)} {k : String} {v : JVal}
    (h : jlookup fs k = some v) : setFields fs k v = fs := by
  induction fs with
  | nil => simp [jlookup] at h
  | cons p rest ih =>
      obtain ⟨k0, v0⟩ := p
      by_cases h0 : k0 = k
      · subst h0
        rw [jlookup, if_pos rfl] at h
        injection h with hv
        subst hv
        simp [setFields]
      · rw [jlookup, if_neg h0] at h
        simp [setFields, h0, ih h]

theorem agreesOutside_refl (ks : List String) (d : JVal) : agreesOutside ks d d :=
  fun _ _ => rfl

theorem agreesOutside_trans {ks : List String} {a b c : JVal}
    (h1 : agreesOutside ks a b) (h2 : agreesOutside ks b c) :
    agreesOutside ks a c := fun k hk => (h2 k hk).trans (h1 k hk)

theorem agreesOutside_mono {ks ks' : List String} {a b : JVal}
    (hsub : ∀ k, k ∈ ks → k ∈ ks') (h : agreesOutside ks a b) :
    agreesOutside ks' a b := by
  intro k hk
  exact h k (fun hmem => hk (hsub k hmem))

theorem pySetItem_agrees {d out : JVal} {k : String} {v : JVal}
    (h : pySetItem d k v = .ok out) : agreesOutside [k] d out := by
  rcases pySetItem_ok.mp h with ⟨fs, rfl, rfl⟩
  intro k' hk'
  have hne : k' ≠ k := by simpa using hk'
  simp [jGet, jlookup_setFields, hne]

theorem pySetItem_jGet_self {d out : JVal} {k : String} {v : JVal}
    (h : pySetItem d k v = .ok out) : jGet out k = some v := by
  rcases pySetItem_ok.mp h with ⟨fs, rfl, rfl⟩
  simp [jGet, jlookup_setFields]

theorem pySetItem_self {fs : List (String × JVal)} {k : String} {v : JVal}
    (h : jlookup fs k = some v) : pySetItem (.obj fs) k v = .ok (.obj fs) := by
  simp [pySetItem, setFields_self h]

theorem ok_bind {α β : Type} (a : α) (f : α → Except String β) :
    ((.ok a : Except String α) >>= f) = f a := rfl

theorem merge_price_block_err {d pd : JVal} (h : pyContains pd "error" = .ok true) :
    merge_price_block d pd = .ok d := by
  unfold merge_price_block
  rw [h, ok_bind]
  rfl

theorem bind_pure_ok {α β : Type} (a : α) (f : α → Except String β) :
    ((pure a : Except String α) >>= f) = f a := rfl

theorem merge_evidence_block_empty {d out : JVal}
    (h : merge_evidence_block d (.obj []) = .ok out) : out = d := by
  unfold merge_evidence_block at h
  rw [show pyGetD (.obj []) "cards" (.arr []) = .ok (.arr []) from rfl, ok_bind] at h
  rcases except_bind_ok.mp h with ⟨evObj, h1, h⟩
  rcases pyGetD_ok.mp h1 with ⟨dfs, rfl, hEvObj⟩
  rcases except_bind_ok.mp h with ⟨cardsV, h2, h⟩
  rcases pyGetD_ok.mp h2 with ⟨efs, hObj, hCardsV⟩
  rw [show pyIterList (.arr []) = .ok [] from rfl, ok_bind] at h
  rw [show List.foldlM applyEvidenceCard cardsV [] = pure cardsV from rfl,
    bind_pure_ok] at h
  cases cardsV with
  | arr xs =>
      by_cases hc : (jGet (JVal.obj dfs) "evidence").isSome ∧ (jGet evObj "cards").isSome
      · rw [if_pos (by simp [hc.1, hc.2])] at h
        have hcards : jlookup efs "cards" = some (.arr xs) := by
          have hs := hc.2
          rw [hObj] at hs
          simp only [jGet] at hs
          rcases Option.isSome_iff_exists.mp hs with ⟨w, hw⟩
          rw [hw] at hCardsV
          simp only [Option.getD_some] at hCardsV
          rw [hw, ← hCardsV]
        have hself : pySetItem evObj "cards" (.arr xs) = .ok evObj := by
          rw [hObj]
          exact pySetItem_self hcards
        rw [hself, ok_bind] at h
        have hev : jlookup dfs "evidence" = some evObj := by
          have hs := hc.1
          simp only [jGet] at hs
          rcases Option.isSome_iff_exists.mp hs with ⟨w, hw⟩
          rw [hw] at hEvObj
          simp only [Option.getD_some] at hEvObj
          rw [hw, hEvObj]
        rw [pySetItem_self hev] at h
        simp at h
        exact h.symm
      · rw [if_neg (by
          intro hcc
          simp only [Bool.and_eq_true] at hcc
          exact hc hcc)] at h
        simp [pure, Except.pure] at h
        exact h.symm
  | null => simp [pure, Except.pure] at h; exact h.symm
  | bool b => simp [pure, Except.pure] at h; exact h.symm
  | num q => simp [pure, Except.pure] at h; exact h.symm
  | str s => simp [pure, Except.pure] at h; exact h.symm
  | obj fs2 => simp [pure, Except.pure] at h; exact h.symm

theorem pyIndex_ok {d v : JVal} {k : String} :
    pyIndex d k = .ok v ↔ ∃ fs, d = .obj fs ∧ jlookup fs k = some v := by
  cases d <;> simp [pyIndex]
  cases h : jlookup _ k <;> simp [h]

theorem merge_hypotheses_block_empty (d : JVal) :
    merge_hypotheses_block d (.obj []) = .ok d := rfl

theorem merge_verdict_block_empty (d : JVal) :
    merge_verdict_block d (.obj []) = .ok d := rfl

theorem merge_hero_block_empty {d out : JVal}
    (h : merge_hero_block d (.obj []) = .ok out) : out = d := by
  unfold merge_hero_block at h
  rcases except_bind_ok.mp h with ⟨hasHero, h1, h⟩
  cases hasHero
  · simp [pure, Except.pure] at h
    exact h.symm
  · have h2 : (Except.ok d : Except String JVal) = .ok out := h
    injection h2 with h3
    exact h3.symm

theorem merge_narrative_block_empty {d pd out : JVal} {now : String}
    (h : merge_narrative_block d (.obj []) pd now = .ok out) : out = d := by
  unfold merge_narrative_block at h
  rcases except_bind_ok.mp h with ⟨hasNarr, h1, h⟩
  cases hasNarr
  · simp [pure, Except.pure] at h
    exact h.symm
  · rw [if_pos rfl] at h
    rcases except_bind_ok.mp h with ⟨narrV, h2, h⟩
    rcases pyIndex_ok.mp h2 with ⟨dfs, rfl, hlk⟩
    cases narrV with
    | obj nfs =>
        have h3 : pySetItem (JVal.obj dfs) "narrative" (.obj nfs) = .ok out := h
        rw [pySetItem_self hlk] at h3
        injection h3 with h4
        exact h4.symm
    | null => simp [pure, Except.pure] at h; exact h.symm
    | bool b => simp [pure, Except.pure] at h; exact h.symm
    | num q => simp [pure, Except.pure] at h; exact h.symm
    | str s => simp [pure, Except.pure] at h; exact h.symm
    | arr xs => simp [pure, Except.pure] at h; exact h.symm

theorem merge_evidence_block_frame {d e out : JVal}
    (h : merge_evidence_block d e = .ok out) : agreesOutside ["evidence"] d out := by
  unfold merge_evidence_block at h
  rcases except_bind_ok.mp h with ⟨evCardsV, h1, h⟩
  rcases except_bind_ok.mp h with ⟨evObj, h2, h⟩
  rcases except_bind_ok.mp h with ⟨cardsV, h3, h⟩
  rcases except_bind_ok.mp h with ⟨updList, h4, h⟩
  rcases except_bind_ok.mp h with ⟨newCardsV, h5, h⟩
  cases cardsV with
  | arr xs =>
      by_cases hc : ((jGet d "evidence").isSome && (jGet evObj "cards").isSome) = true
      · rw [if_pos hc] at h
        rcases except_bind_ok.mp h with ⟨ev', h6, h⟩
        exact pySetItem_agrees h
      · rw [if_neg hc] at h
        rw [(except_pure_ok.mp h)]
        exact agreesOutside_refl _ _
  | null => rw [(except_pure_ok.mp h)]; exact agreesOutside_refl _ _
  | bool b => rw [(except_pure_ok.mp h)]; exact agreesOutside_refl _ _
  | num q => rw [(except_pure_ok.mp h)]; exact agreesOutside_refl _ _
  | str s => rw [(except_pure_ok.mp h)]; exact agreesOutside_refl _ _
  | obj fs2 => rw [(except_pure_ok.mp h)]; exact agreesOutside_refl _ _

theorem updateVerdictScores_frame {u out hu : JVal} {tier a t : String}
    (h : updateVerdictScores u tier hu a t = .ok out) :
    agreesOutside ["verdict"] u out := by
  unfold updateVerdictScores at h
  cases hv : jGet u "verdict" with
  | none =>
      rw [hv] at h
      rw [(except_pure_ok.mp h)]
      exact agreesOutside_refl _ _
  | some v =>
      rw [hv] at h
      rcases except_bind_ok.mp h with ⟨hs, h1, h⟩
      cases hs
      · simp [pure, Except.pure] at h
        rw [h.symm]
        exact agreesOutside_refl _ _
      · rw [if_pos rfl] at h
        rcases except_bind_ok.mp h with ⟨sv, h2, h⟩
        cases sv with
        | arr vss =>
            rcases except_bind_ok.mp h with ⟨vss2, h3, h⟩
            rcases except_bind_ok.mp h with ⟨v2, h4, h⟩
            exact pySetItem_agrees h
        | null =>
            rcases except_bind_ok.mp h with ⟨l, h3, h⟩
            rw [(except_pure_ok.mp h)]; exact agreesOutside_refl _ _
        | bool b =>
            rcases except_bind_ok.mp h with ⟨l, h3, h⟩
            rw [(except_pure_ok.mp h)]; exact agreesOutside_refl _ _
        | num q =>
            rcases except_bind_ok.mp h with ⟨l, h3, h⟩
            rw [(except_pure_ok.mp h)]; exact agreesOutside_refl _ _
        | str s =>
            rcases except_bind_ok.mp h with ⟨l, h3, h⟩
            rw [(except_pure_ok.mp h)]; exact agreesOutside_refl _ _
        | obj fs2 =>
            rcases except_bind_ok.mp h with ⟨l, h3, h⟩
            rw [(except_pure_ok.mp h)]; exact agreesOutside_refl _ _

theorem applyHypothesisUpdate_frame {d hu out : JVal}
    (h : applyHypothesisUpdate d hu = .ok out) :
    agreesOutside ["hypotheses", "verdict"] d out := by
  unfold applyHypothesisUpdate at h
  rcases except_bind_ok.mp h with ⟨tv, h1, h⟩
  rcases except_bind_ok.mp h with ⟨tier, h2, h⟩
  rcases except_bind_ok.mp h with ⟨hv, h3, h⟩
  cases hv with
  | arr hl =>
      rcases except_bind_ok.mp h with ⟨us, h4, h⟩
      rcases except_bind_ok.mp h with ⟨ud, h5, h⟩
      rcases except_bind_ok.mp h with ⟨r, h6, h⟩
      cases r with
      | none =>
          rw [(except_pure_ok.mp h)]
          exact agreesOutside_refl _ _
      | some nl =>
          rcases except_bind_ok.mp h with ⟨u1, h7, h⟩
          rcases except_bind_ok.mp h with ⟨dv, h8, h⟩
          rcases except_bind_ok.mp h with ⟨ad, h9, h⟩
          have f1 : agreesOutside ["hypotheses", "verdict"] d u1 :=
            agreesOutside_mono (by intro k hk; simp at hk; simp [hk])
              (pySetItem_agrees h7)
          have f2 : agreesOutside ["hypotheses", "verdict"] u1 out :=
            agreesOutside_mono (by intro k hk; simp at hk; simp [hk])
              (updateVerdictScores_frame h)
          exact agreesOutside_trans f1 f2
  | null =>
      rcases except_bind_ok.mp h with ⟨l, h4, h⟩
      rw [(except_pure_ok.mp h)]; exact agreesOutside_refl _ _
  | bool b =>
      rcases except_bind_ok.mp h with ⟨l, h4, h⟩
      rw [(except_pure_ok.mp h)]; exact agreesOutside_refl _ _
  | num q =>
      rcases except_bind_ok.mp h with ⟨l, h4, h⟩
      rw [(except_pure_ok.mp h)]; exact agreesOutside_refl _ _
  | str s =>
      rcases except_bind_ok.mp h with ⟨l, h4, h⟩
      rw [(except_pure_ok.mp h)]; exact agreesOutside_refl _ _
  | obj fs2 =>
      rcases except_bind_ok.mp h with ⟨l, h4, h⟩
      rw [(except_pure_ok.mp h)]; exact agreesOutside_refl _ _

theorem foldl_applyHyp_frame : ∀ (hus : List JVal) (d out : JVal),
    List.foldlM applyHypothesisUpdate d hus = .ok out →
    agreesOutside ["hypotheses", "verdict"] d out := by
  intro hus
  induction hus with
  | nil =>
      intro d out h
      rw [(except_pure_ok.mp h)]
      exact agreesOutside_refl _ _
  | cons x xs ih =>
      intro d out h
      rw [List.foldlM_cons] at h
      rcases except_bind_ok.mp h with ⟨d', h1, h⟩
      exact agreesOutside_trans (applyHypothesisUpdate_frame h1) (ih d' out h)

theorem merge_hypotheses_block_frame {d hy out : JVal}
    (h : merge_hypotheses_block d hy = .ok out) :
    agreesOutside ["hypotheses", "verdict"] d out := by
  unfold merge_hypotheses_block at h
  rcases except_bind_ok.mp h with ⟨husV, h1, h⟩
  rcases except_bind_ok.mp h with ⟨hus, h2, h⟩
  exact foldl_applyHyp_frame hus d out h


theorem hero_set_field_frame {u out v : JVal} {k : String}
    (h : hero_set_field u k v = .ok out) : agreesOutside ["hero"] u out := by
  unfold hero_set_field at h
  rcases except_bind_ok.mp h with ⟨hero, h1, h⟩
  rcases except_bind_ok.mp h with ⟨hero', h2, h⟩
  exact pySetItem_agrees h

theorem hero_field_step_frame {u out v : JVal} {k : String}
    (h : hero_field_step u k v = .ok out) : agreesOutside ["hero"] u out := by
  unfold hero_field_step at h
  by_cases ht : truthy v = true
  · rw [if_pos ht] at h
    exact hero_set_field_frame h
  · rw [if_neg ht] at h
    rw [(except_pure_ok.mp h)]
    exact agreesOutside_refl _ _

theorem hero_ndp_step_frame {u out ndp : JVal}
    (h : hero_ndp_step u ndp = .ok out) : agreesOutside ["hero"] u out := by
  unfold hero_ndp_step at h
  by_cases hc : (truthy ndp && isDictB ndp) = true
  · rw [if_pos hc] at h
    rcases except_bind_ok.mp h with ⟨ev, h1, h⟩
    by_cases he : truthy ev = true
    · rw [if_pos he] at h
      rcases except_bind_ok.mp h with ⟨dt, h2, h⟩
      rcases except_bind_ok.mp h with ⟨mt, h3, h⟩
      rcases except_bind_ok.mp h with ⟨th, h4, h⟩
      exact hero_set_field_frame h
    · rw [if_neg he] at h
      rw [(except_pure_ok.mp h)]
      exact agreesOutside_refl _ _
  · rw [if_neg hc] at h
    rw [(except_pure_ok.mp h)]
    exact agreesOutside_refl _ _

theorem merge_hero_block_frame {d hy out : JVal}
    (h : merge_hero_block d hy = .ok out) : agreesOutside ["hero"] d out := by
  unfold merge_hero_block at h
  rcases except_bind_ok.mp h with ⟨hasHero, h1, h⟩
  cases hasHero
  · simp [pure, Except.pure] at h
    rw [h.symm]
    exact agreesOutside_refl _ _
  · rw [if_pos rfl] at h
    rcases except_bind_ok.mp h with ⟨et, h2, h⟩
    rcases except_bind_ok.mp h with ⟨u1, h3, h⟩
    rcases except_bind_ok.mp h with ⟨sd, h4, h⟩
    rcases except_bind_ok.mp h with ⟨u2, h5, h⟩
    rcases except_bind_ok.mp h with ⟨ndp, h6, h⟩
    exact agreesOutside_trans (hero_field_step_frame h3)
      (agreesOutside_trans (hero_field_step_frame h5) (hero_ndp_step_frame h))

theorem merge_narrative_block_frame {d hy pd out : JVal} {now : String}
    (h : merge_narrative_block d hy pd now = .ok out) :
    agreesOutside ["narrative"] d out := by
  unfold merge_narrative_block at h
  rcases except_bind_ok.mp h with ⟨hasNarr, h1, h⟩
  cases hasNarr
  · simp [pure, Except.pure] at h
    rw [h.symm]
    exact agreesOutside_refl _ _
  · rw [if_pos rfl] at h
    rcases except_bind_ok.mp h with ⟨narrV, h2, h⟩
    cases narrV with
    | obj nfs =>
        rcases except_bind_ok.mp h with ⟨n1, h3, h⟩
        rcases except_bind_ok.mp h with ⟨n2, h4, h⟩
        rcases except_bind_ok.mp h with ⟨ec, h5, h⟩
        rcases except_bind_ok.mp h with ⟨n3, h6, h⟩
        rcases except_bind_ok.mp h with ⟨ns, h7, h⟩
        rcases except_bind_ok.mp h with ⟨n4, h8, h⟩
        exact pySetItem_agrees h
    | null => rw [(except_pure_ok.mp h)]; exact agreesOutside_refl _ _
    | bool b => rw [(except_pure_ok.mp h)]; exact agreesOutside_refl _ _
    | num q => rw [(except_pure_ok.mp h)]; exact agreesOutside_refl _ _
    | str s => rw [(except_pure_ok.mp h)]; exact agreesOutside_refl _ _
    | arr xs => rw [(except_pure_ok.mp h)]; exact agreesOutside_refl _ _

theorem merge_verdict_block_frame {d hy out : JVal}
    (h : merge_verdict_block d hy = .ok out) : agreesOutside ["verdict"] d out := by
  unfold merge_verdict_block at h
  rcases except_bind_ok.mp h with ⟨vu, h1, h⟩
  by_cases hv : truthy vu = true
  · rw [if_pos hv] at h
    rcases except_bind_ok.mp h with ⟨hasV, h2, h⟩
    cases hasV
    · simp [pure, Except.pure] at h
      rw [h.symm]
      exact agreesOutside_refl _ _
    · rw [if_pos rfl] at h
      rcases except_bind_ok.mp h with ⟨v, h3, h⟩
      cases v with
      | obj vfs =>
          rcases except_bind_ok.mp h with ⟨v', h4, h⟩
          exact pySetItem_agrees h
      | null => rw [(except_pure_ok.mp h)]; exact agreesOutside_refl _ _
      | bool b => rw [(except_pure_ok.mp h)]; exact agreesOutside_refl _ _
      | num q => rw [(except_pure_ok.mp h)]; exact agreesOutside_refl _ _
      | str s => rw [(except_pure_ok.mp h)]; exact agreesOutside_refl _ _
      | arr xs => rw [(except_pure_ok.mp h)]; exact agreesOutside_refl _ _
  · rw [if_neg hv] at h
    rw [(except_pure_ok.mp h)]
    exact agreesOutside_refl _ _

/-- Claim C1, counterexample: a RefreshJob in the non-terminal state
writing_results with stage_index 4 (a state run_refresh actually writes, as
its membership in stageStates shows) already reports progress 100, so 100
does not occur only on status completed. -/
theorem C1_counterexample :
    RefreshJob.progress_pct ⟨"ABC", "writing_results", 4, none⟩ = 100 ∧
    RefreshJob.nonTerminal ⟨"ABC", "writing_results", 4, none⟩ = true ∧
    ¬((⟨"ABC", "writing_results", 4, none⟩ : RefreshJob).status = "completed") ∧
    (⟨"ABC", "writing_results", 4, none⟩ : RefreshJob) ∈ stageStates "ABC" := by
  decide

/-- Claim C1, amended: progress_pct is 100 on completed, 0 on failed, and
min(stage_index * 25, 100) on every non-terminal status; a non-terminal job
reports 100 exactly when stage_index * 25 has reached 100 (stage_index 4,
the writing_results stage, already does). -/
theorem C1_theorem : ∀ j : RefreshJob,
    (j.status = "completed" → j.progress_pct = 100) ∧
    (j.status ≠ "completed" → j.status = "failed" → j.progress_pct = 0) ∧
    (j.status ≠ "completed" → j.status ≠ "failed" →
      (j.progress_pct = min (j.stage_index * 25) 100 ∧
        (j.progress_pct = 100 ↔ 100 ≤ j.stage_index * 25))) := by
  intro j
  unfold RefreshJob.progress_pct
  refine ⟨?_, ?_, ?_⟩
  · intro h
    rw [if_pos h]
  · intro h1 h2
    rw [if_neg h1, if_pos h2]
  · intro h1 h2
    rw [if_neg h1, if_neg h2]
    refine ⟨rfl, ?_⟩
    omega

/-- Claim C1, witness: the amended statement evaluated on concrete jobs. -/
theorem C1_witness :
    RefreshJob.progress_pct ⟨"XYZ", "completed", 5, none⟩ = 100 ∧
    RefreshJob.progress_pct ⟨"XYZ", "failed", 2, none⟩ = 0 ∧
    RefreshJob.progress_pct ⟨"XYZ", "gathering_data", 1, none⟩ =
      min ((1 : Int) * 25) 100 :=
  ⟨( C1_theorem ⟨"XYZ", "completed", 5, none⟩).1 rfl,
   ( C1_theorem ⟨"XYZ", "failed", 2, none⟩).2.1 (by decide) rfl,
   (( C1_theorem ⟨"XYZ", "gathering_data", 1, none⟩).2.2 (by decide) (by decide)).1⟩

/-- Claim C10, counterexample: progress_pct read on a BatchRefreshJob state
whose per-ticker map holds more terminal snapshots than there are tickers
returns 200, outside the claimed 0-100 range (the runner keys snapshots by
upper-cased ticker while the ticker list is stored as given, so the map can
hold entries beyond the ticker list). -/
theorem C10_counterexample :
    BatchRefreshJob.progress_pct
      ⟨"b1", ["abc"], "in_progress",
        [("abc", ⟨"abc", "completed"⟩), ("ABC", ⟨"ABC", "failed"⟩)], []⟩ = 200 ∧
    ¬(BatchRefreshJob.progress_pct
      ⟨"b1", ["abc"], "in_progress",
        [("abc", ⟨"abc", "completed"⟩), ("ABC", ⟨"ABC", "failed"⟩)], []⟩ ≤ 100) := by
  decide

/-- Claim C10, amended: progress_pct is total by construction, returns 0 on
an empty ticker list rather than dividing by zero, and stays within 0-100 in
every state where the terminal snapshot count does not exceed the ticker
count (which holds for the states the batch runner itself builds). -/
theorem C10_theorem : ∀ b : BatchRefreshJob,
    (b.tickers = [] → b.progress_pct = 0) ∧
    (b.total_completed + b.total_failed ≤ b.tickers.length →
      b.progress_pct ≤ 100) := by
  intro b
  constructor
  · intro h
    unfold BatchRefreshJob.progress_pct
    rw [if_pos (by simp [h])]
  · intro hle
    unfold BatchRefreshJob.progress_pct
    by_cases he : b.tickers.isEmpty
    · rw [if_pos he]
      exact Nat.zero_le _
    · rw [if_neg he]
      have hpos : 0 < b.tickers.length := by
        cases hT : b.tickers with
        | nil => rw [hT] at he; simp at he
        | cons x xs => simp [hT]
      calc (b.total_completed + b.total_failed) * 100 / b.tickers.length
          ≤ b.tickers.length * 100 / b.tickers.length :=
            Nat.div_le_div_right (Nat.mul_le_mul_right _ hle)
        _ = 100 := Nat.mul_div_cancel_left _ hpos

/-- Claim C10, witness: the amended statement evaluated on concrete batch
states. -/
theorem C10_witness :
    BatchRefreshJob.progress_pct ⟨"b0", [], "queued", [], []⟩ = 0 ∧
    BatchRefreshJob.progress_pct
      ⟨"b2", ["AAA"], "in_progress", [("AAA", ⟨"AAA", "completed"⟩)], []⟩ ≤ 100 :=
  ⟨( C10_theorem ⟨"b0", [], "queued", [], []⟩).1 rfl,
   ( C10_theorem ⟨"b2", ["AAA"], "in_progress", [("AAA", ⟨"AAA", "completed"⟩)], []⟩).2
     (by decide)⟩

theorem geminiLoop_nonretry {m : String} {mr : Nat}
    (hr : isRateLimitMsg m = false) (hs : isServerErrMsg m = false) :
    ∀ fuel attempt, attempt + fuel = mr + 1 → 1 ≤ fuel →
    geminiLoop (fun _ => .exc m) mr fuel attempt =
      ⟨.providerError m, fuel, List.replicate (fuel - 1) 1⟩ := by
  have hstep : ∀ fl at', geminiLoop (fun _ => .exc m) mr (fl + 1) at' =
      if at' < mr then
        (⟨(geminiLoop (fun _ => .exc m) mr fl (at' + 1)).result,
          (geminiLoop (fun _ => .exc m) mr fl (at' + 1)).calls + 1,
          1 :: (geminiLoop (fun _ => .exc m) mr fl (at' + 1)).sleeps⟩ : GeminiRun)
      else ⟨.providerError m, 1, []⟩ := by
    intro fl at'
    simp only [geminiLoop, hr, hs, Bool.false_eq_true, if_false]
  intro fuel
  induction fuel with
  | zero =>
      intro attempt h h1
      omega
  | succ f ih =>
      intro attempt h _
      rw [hstep f attempt]
      cases f with
      | zero =>
          have hnl : ¬(attempt < mr) := by omega
          rw [if_neg hnl]
          rfl
      | succ f' =>
          have hlt : attempt < mr := by omega
          rw [if_pos hlt, ih (attempt + 1) (by omega) (by omega)]
          rfl

theorem geminiLoop_rate {m : String} {mr : Nat} (hr : isRateLimitMsg m = true) :
    ∀ fuel attempt,
    geminiLoop (fun _ => .exc m) mr fuel attempt =
      ⟨.runtimeError, fuel, (List.range' attempt fuel).map rateWait⟩ := by
  intro fuel
  induction fuel with
  | zero => intro attempt; rfl
  | succ f ih =>
      intro attempt
      simp only [geminiLoop, hr, if_true, ih (attempt + 1)]
      rfl

theorem geminiLoop_server {m : String} {mr : Nat}
    (hr : isRateLimitMsg m = false) (hs : isServerErrMsg m = true) :
    ∀ fuel attempt,
    geminiLoop (fun _ => .exc m) mr fuel attempt =
      ⟨.runtimeError, fuel, List.replicate fuel 1⟩ := by
  intro fuel
  induction fuel with
  | zero => intro attempt; rfl
  | succ f ih =>
      intro attempt
      simp only [geminiLoop, hr, hs, Bool.false_eq_true, if_false, if_true,
        ih (attempt + 1)]
      rfl

/-- Claim C3, counterexample: on an error that is neither rate-limit/quota
nor 5xx (message "invalid api key"), gemini_completion at its default
max_retries = 2 makes three API calls (two retries, each after a 1-second
sleep) before re-raising the provider error, so such errors are not retried
at most once. -/
theorem C3_counterexample :
    gemini_completion (fun _ => .exc "invalid api key") 2 =
      ⟨.providerError "invalid api key", 3, [1, 1]⟩ ∧
    isRateLimitMsg "invalid api key" = false ∧
    isServerErrMsg "invalid api key" = false ∧
    ¬((gemini_completion (fun _ => .exc "invalid api key") 2).calls ≤ 2) := by
  refine ⟨rfl, rfl, rfl, ?_⟩
  decide

/-- Claim C3, amended: non-retryable errors (neither rate-limit/quota nor
5xx) are retried with a fixed 1-second backoff until the max_retries budget
is exhausted — max_retries + 1 calls in all — and then the underlying
provider error is raised; rate-limit/quota errors back off min(2 * 2^attempt,
30) seconds per attempt and, when every attempt fails, the loop falls
through to a RuntimeError; generic 5xx errors back off a fixed 1 second per
attempt with the same fall-through. -/
theorem C3_theorem : ∀ (mr : Nat) (m : String),
    (isRateLimitMsg m = false → isServerErrMsg m = false →
      gemini_completion (fun _ => .exc m) mr =
        ⟨.providerError m, mr + 1, List.replicate mr 1⟩) ∧
    (isRateLimitMsg m = true →
      gemini_completion (fun _ => .exc m) mr =
        ⟨.runtimeError, mr + 1, (List.range (mr + 1)).map rateWait⟩) ∧
    (isRateLimitMsg m = false → isServerErrMsg m = true →
      gemini_completion (fun _ => .exc m) mr =
        ⟨.runtimeError, mr + 1, List.replicate (mr + 1) 1⟩) := by
  intro mr m
  refine ⟨?_, ?_, ?_⟩
  · intro hr hs
    unfold gemini_completion
    rw [geminiLoop_nonretry hr hs (mr + 1) 0 (by omega) (by omega)]
    simp
  · intro hr
    unfold gemini_completion
    rw [geminiLoop_rate hr (mr + 1) 0, List.range_eq_range']
  · intro hr hs
    unfold gemini_completion
    rw [geminiLoop_server hr hs (mr + 1) 0]

/-- Claim C3, witness: the amended statement evaluated at the default
max_retries = 2 on one message of each error class. -/
theorem C3_witness :
    gemini_completion (fun _ => .exc "bad request") 2 =
      ⟨.providerError "bad request", 3, List.replicate 2 1⟩ ∧
    gemini_completion (fun _ => .exc "429 resource exhausted") 2 =
      ⟨.runtimeError, 3, (List.range 3).map rateWait⟩ ∧
    gemini_completion (fun _ => .exc "503 unavailable") 2 =
      ⟨.runtimeError, 3, List.replicate 3 1⟩ :=
  ⟨( C3_theorem 2 "bad request").1 (by decide) (by decide),
   ( C3_theorem 2 "429 resource exhausted").2.1 (by decide),
   ( C3_theorem 2 "503 unavailable").2.2 (by decide) (by decide)⟩

/-- Claim C8: the synthesis stage uses the Gemini fallback outcome whenever
the Anthropic key is unconfigured (falsy) and the Claude outcome otherwise;
a raised error from the chosen provider is absorbed, never propagated, into
the degraded payload, whose hypothesis list is empty, whose verdict update
is null and whose narrative field carries the diagnostic message — a
well-formed input for the merge stage. -/
theorem C8_theorem :
    (∀ (c : Except String JVal) (v : JVal),
      run_hypothesis_synthesis "" (.ok v) c = v) ∧
    (∀ (key : String) (g : Except String JVal) (v : JVal), key ≠ "" →
      run_hypothesis_synthesis key g (.ok v) = v) ∧
    (∀ (c : Except String JVal) (e : String),
      run_hypothesis_synthesis "" (.error e) c = degradedSynthesisPayload e) ∧
    (∀ (key : String) (g : Except String JVal) (e : String), key ≠ "" →
      run_hypothesis_synthesis key g (.error e) = degradedSynthesisPayload e) ∧
    (∀ e : String,
      jGet (degradedSynthesisPayload e) "hypotheses" = some (.arr []) ∧
      jGet (degradedSynthesisPayload e) "verdict_update" = some .null ∧
      jGet (degradedSynthesisPayload e) "narrative_update" =
        some (.str ("Synthesis unavailable: " ++ e))) := by
  refine ⟨?_, ?_, ?_, ?_, ?_⟩
  · intro c v
    rfl
  · intro key g v hk
    unfold run_hypothesis_synthesis
    rw [if_neg hk]
  · intro c e
    rfl
  · intro key g e hk
    unfold run_hypothesis_synthesis
    rw [if_neg hk]
  · intro e
    exact ⟨rfl, rfl, rfl⟩

/-- Claim C8, witness: the statement evaluated on concrete provider
outcomes and a concrete configured key. -/
theorem C8_witness :
    run_hypothesis_synthesis "" (.ok (.obj [("hypotheses", .arr [])]))
      (.error "unused") = .obj [("hypotheses", .arr [])] ∧
    run_hypothesis_synthesis "sk-key" (.error "unused") (.ok (.num 1)) = .num 1 ∧
    run_hypothesis_synthesis "sk-key" (.ok (.num 2)) (.error "boom") =
      degradedSynthesisPayload "boom" :=
  ⟨( C8_theorem.1 (.error "unused") (.obj [("hypotheses", .arr [])])),
   ( C8_theorem.2.1 "sk-key" (.error "unused") (.num 1) (by decide)),
   ( C8_theorem.2.2.2.1 "sk-key" (.ok (.num 2)) "boom" (by decide))⟩

/-- Claim C9: over the lifetime of one run_refresh execution — whether it
completes or fails after any stage — stage_index never decreases across the
written job states, and the derived progress_pct is monotonically
non-decreasing over the states preceding the terminal one. -/
theorem C9_theorem : ∀ (t msg : String) (fp : Option (Fin 5)),
    List.Chain' (fun a b => a.stage_index ≤ b.stage_index)
      (runRefreshTrace t fp msg) ∧
    List.Chain' (fun a b => a.progress_pct ≤ b.progress_pct)
      ((runRefreshTrace t fp msg).takeWhile RefreshJob.nonTerminal) := by
  intro t msg fp
  rcases fp with _ | ⟨k, hk⟩
  · constructor <;>
      simp [runRefreshTrace, stageStates, List.chain'_cons, List.takeWhile,
        RefreshJob.nonTerminal, RefreshJob.progress_pct]
  · interval_cases k <;>
      constructor <;>
      simp [runRefreshTrace, stageStates, List.chain'_cons, List.takeWhile,
        RefreshJob.nonTerminal, RefreshJob.progress_pct]

/-- Claim C9, witness: the statement evaluated on a concrete ticker for the
successful trace and for a failure after stage 2. -/
theorem C9_witness :
    (List.Chain' (fun a b => a.stage_index ≤ b.stage_index)
      (runRefreshTrace "ABC" none "") ∧
    List.Chain' (fun a b => a.progress_pct ≤ b.progress_pct)
      ((runRefreshTrace "ABC" none "").takeWhile RefreshJob.nonTerminal)) ∧
    (List.Chain' (fun a b => a.stage_index ≤ b.stage_index)
      (runRefreshTrace "ABC" (some 2) "boom") ∧
    List.Chain' (fun a b => a.progress_pct ≤ b.progress_pct)
      ((runRefreshTrace "ABC" (some 2) "boom").takeWhile RefreshJob.nonTerminal)) :=
  ⟨ C9_theorem "ABC" "" none, C9_theorem "ABC" "boom" (some 2)⟩

theorem total_failed_zero_iff (b : BatchRefreshJob) :
    b.total_failed = 0 ↔
      ∀ s ∈ b.per_ticker_status.map (fun p => p.2), s.status ≠ "failed" := by
  unfold BatchRefreshJob.total_failed
  rw [List.countP_eq_zero]
  simp

theorem total_completed_zero_iff (b : BatchRefreshJob) :
    b.total_completed = 0 ↔
      ∀ s ∈ b.per_ticker_status.map (fun p => p.2), s.status ≠ "completed" := by
  unfold BatchRefreshJob.total_completed
  rw [List.countP_eq_zero]
  simp

theorem total_failed_pos_iff (b : BatchRefreshJob) :
    0 < b.total_failed ↔
      ∃ s ∈ b.per_ticker_status.map (fun p => p.2), s.status = "failed" := by
  unfold BatchRefreshJob.total_failed
  rw [List.countP_pos_iff]
  simp

theorem total_completed_pos_iff (b : BatchRefreshJob) :
    0 < b.total_completed ↔
      ∃ s ∈ b.per_ticker_status.map (fun p => p.2), s.status = "completed" := by
  unfold BatchRefreshJob.total_completed
  rw [List.countP_pos_iff]
  simp

/-- Claim C6: the terminal batch status written after all per-ticker
pipelines finish is completed exactly when no per-ticker snapshot reports
failed, failed exactly when some snapshot reports failed and none reports
completed, and partially_failed exactly when both a failed and a completed
snapshot exist. -/
theorem C6_theorem : ∀ b : BatchRefreshJob,
    (finalizeBatchStatus b = "completed" ↔
      ∀ s ∈ b.per_ticker_status.map (fun p => p.2), s.status ≠ "failed") ∧
    (finalizeBatchStatus b = "failed" ↔
      ((∃ s ∈ b.per_ticker_status.map (fun p => p.2), s.status = "failed") ∧
        ∀ s ∈ b.per_ticker_status.map (fun p => p.2), s.status ≠ "completed")) ∧
    (finalizeBatchStatus b = "partially_failed" ↔
      ((∃ s ∈ b.per_ticker_status.map (fun p => p.2), s.status = "failed") ∧
        (∃ s ∈ b.per_ticker_status.map (fun p => p.2), s.status = "completed"))) := by
  intro b
  by_cases hf : b.total_failed = 0
  · have hst : finalizeBatchStatus b = "completed" := by
      unfold finalizeBatchStatus
      rw [if_pos hf]
    rw [hst]
    have hnofail := (total_failed_zero_iff b).mp hf
    refine ⟨⟨fun _ => hnofail, fun _ => rfl⟩, ?_, ?_⟩
    · constructor
      · intro hc
        exact absurd hc (by decide)
      · intro ⟨⟨s, hs, hsf⟩, _⟩
        exact absurd hsf (hnofail s hs)
    · constructor
      · intro hc
        exact absurd hc (by decide)
      · intro ⟨⟨s, hs, hsf⟩, _⟩
        exact absurd hsf (hnofail s hs)
  · have hfex : ∃ s ∈ b.per_ticker_status.map (fun p => p.2), s.status = "failed" :=
      (total_failed_pos_iff b).mp (Nat.pos_of_ne_zero hf)
    by_cases hc : b.total_completed = 0
    · have hst : finalizeBatchStatus b = "failed" := by
        unfold finalizeBatchStatus
        rw [if_neg hf, if_pos hc]
      rw [hst]
      have hnocomp := (total_completed_zero_iff b).mp hc
      refine ⟨?_, ⟨fun _ => ⟨hfex, hnocomp⟩, fun _ => rfl⟩, ?_⟩
      · constructor
        · intro habs
          exact absurd habs (by decide)
        · intro hall
          rcases hfex with ⟨s, hs, hsf⟩
          exact absurd hsf (hall s hs)
      · constructor
        · intro habs
          exact absurd habs (by decide)
        · intro ⟨_, ⟨s, hs, hsc⟩⟩
          exact absurd hsc (hnocomp s hs)
    · have hcex : ∃ s ∈ b.per_ticker_status.map (fun p => p.2),
          s.status = "completed" :=
        (total_completed_pos_iff b).mp (Nat.pos_of_ne_zero hc)
      have hst : finalizeBatchStatus b = "partially_failed" := by
        unfold finalizeBatchStatus
        rw [if_neg hf, if_neg hc]
      rw [hst]
      refine ⟨?_, ?_, ⟨fun _ => ⟨hfex, hcex⟩, fun _ => rfl⟩⟩
      · constructor
        · intro habs
          exact absurd habs (by decide)
        · intro hall
          rcases hfex with ⟨s, hs, hsf⟩
          exact absurd hsf (hall s hs)
      · constructor
        · intro habs
          exact absurd habs (by decide)
        · intro ⟨_, hall⟩
          rcases hcex with ⟨s, hs, hsc⟩
          exact absurd hsc (hall s hs)

/-- Claim C6, witness: the statement evaluated on a concrete finished batch
with one failed and one completed entity, whose terminal status is
partially_failed. -/
theorem C6_witness :
    finalizeBatchStatus
      ⟨"b3", ["AAA", "BBB"], "in_progress",
        [("AAA", ⟨"AAA", "completed"⟩), ("BBB", ⟨"BBB", "failed"⟩)], []⟩ =
      "partially_failed" :=
  ( C6_theorem
    ⟨"b3", ["AAA", "BBB"], "in_progress",
      [("AAA", ⟨"AAA", "completed"⟩), ("BBB", ⟨"BBB", "failed"⟩)], []⟩).2.2.mpr
    ⟨⟨⟨"BBB", "failed"⟩, by decide, rfl⟩, ⟨⟨"AAA", "completed"⟩, by decide, rfl⟩⟩

/-- Claim C2: merging a document with an empty evidence update and an empty
synthesis update, when the gathered price data carries an error marker (a
gather with nothing usable), produces exactly the input document with the
top-level date and the _lastRefreshed ISO marker rewritten to the current
clock strings; both timestamps are always present in the output, and every
other field reads back unchanged. -/
theorem C2_theorem : ∀ (doc gathered pd out : JVal) (now nowIso : String),
    pyGetD gathered "price_data" (.obj []) = .ok pd →
    pyContains pd "error" = .ok true →
    merge_updates doc gathered (.obj []) (.obj []) now nowIso = .ok out →
    out = setKey (setKey doc "date" (.str now)) "_lastRefreshed" (.str nowIso) ∧
    jGet out "date" = some (.str now) ∧
    jGet out "_lastRefreshed" = some (.str nowIso) ∧
    (∀ k, k ≠ "date" → k ≠ "_lastRefreshed" → jGet out k = jGet doc k) := by
  intro doc gathered pd out now nowIso hpd herr h
  unfold merge_updates at h
  rcases except_bind_ok.mp h with ⟨pd', h1, h⟩
  have epd : pd' = pd := by
    rw [hpd] at h1
    exact (Except.ok.inj h1).symm
  rw [epd] at h
  rcases except_bind_ok.mp h with ⟨u1, h2, h⟩
  have e1 : u1 = doc := by
    rw [merge_price_block_err herr] at h2
    exact (Except.ok.inj h2).symm
  rw [e1] at h
  rcases except_bind_ok.mp h with ⟨u2, h3, h⟩
  rw [merge_evidence_block_empty h3] at h
  rcases except_bind_ok.mp h with ⟨u3, h4, h⟩
  have e3 : u3 = doc := by
    rw [merge_hypotheses_block_empty] at h4
    exact (Except.ok.inj h4).symm
  rw [e3] at h
  rcases except_bind_ok.mp h with ⟨u4, h5, h⟩
  rw [merge_hero_block_empty h5] at h
  rcases except_bind_ok.mp h with ⟨u5, h6, h⟩
  rw [merge_narrative_block_empty h6] at h
  rcases except_bind_ok.mp h with ⟨u6, h7, h⟩
  have e6 : u6 = doc := by
    rw [merge_verdict_block_empty] at h7
    exact (Except.ok.inj h7).symm
  rw [e6] at h
  rcases except_bind_ok.mp h with ⟨u7, h8, h⟩
  rcases pySetItem_ok.mp h8 with ⟨dfs, hdoc, hu7⟩
  rw [hu7] at h
  rcases pySetItem_ok.mp h with ⟨dfs2, hEq, hout⟩
  injection hEq with hEq'
  rw [← hEq'] at hout
  subst hdoc
  subst hout
  refine ⟨rfl, ?_, ?_, ?_⟩
  · simp [jGet, jlookup_setFields]
  · simp [jGet, jlookup_setFields]
  · intro k hk1 hk2
    simp [jGet, jlookup_setFields, hk1, hk2]

/-- Claim C2, witness: the statement evaluated on a concrete document, an
error-marked gather result and empty update payloads. -/
theorem C2_witness :
    merge_updates
      (.obj [("company", .str "Acme"), ("price", .str "1.23"),
        ("narrative", .obj [("theNarrative", .str "n")])])
      (.obj [("price_data", .obj [("error", .str "feed down")])])
      (.obj []) (.obj []) "2026-02-03 04:05 UTC" "2026-02-03T04:05:06+00:00" =
      .ok (.obj [("company", .str "Acme"), ("price", .str "1.23"),
        ("narrative", .obj [("theNarrative", .str "n")]),
        ("date", .str "2026-02-03 04:05 UTC"),
        ("_lastRefreshed", .str "2026-02-03T04:05:06+00:00")]) ∧
    jGet (.obj [("company", .str "Acme"), ("price", .str "1.23"),
        ("narrative", .obj [("theNarrative", .str "n")]),
        ("date", .str "2026-02-03 04:05 UTC"),
        ("_lastRefreshed", .str "2026-02-03T04:05:06+00:00")]) "company" =
      some (.str "Acme") := by
  have hmain := C2_theorem
    (.obj [("company", .str "Acme"), ("price", .str "1.23"),
      ("narrative", .obj [("theNarrative", .str "n")])])
    (.obj [("price_data", .obj [("error", .str "feed down")])])
    (.obj [("error", .str "feed down")])
    (.obj [("company", .str "Acme"), ("price", .str "1.23"),
      ("narrative", .obj [("theNarrative", .str "n")]),
      ("date", .str "2026-02-03 04:05 UTC"),
      ("_lastRefreshed", .str "2026-02-03T04:05:06+00:00")])
    "2026-02-03 04:05 UTC" "2026-02-03T04:05:06+00:00" rfl rfl rfl
  exact ⟨rfl, by rw [hmain.2.2.2 "company" (by decide) (by decide)]; rfl⟩

/-- Claim C5: whenever the gathered price data carries an "error" key, a
successful merge leaves the document's price, currency, heroMetrics (the
52-week-range and price metric rows) and priceHistory fields exactly as they
were, for every evidence and synthesis update payload; those fields are
rewritten only on the error-free path of the price block. -/
theorem C5_theorem : ∀ (doc gathered ev hy pd out : JVal) (now nowIso : String),
    pyGetD gathered "price_data" (.obj []) = .ok pd →
    pyContains pd "error" = .ok true →
    merge_updates doc gathered ev hy now nowIso = .ok out →
    jGet out "price" = jGet doc "price" ∧
    jGet out "currency" = jGet doc "currency" ∧
    jGet out "heroMetrics" = jGet doc "heroMetrics" ∧
    jGet out "priceHistory" = jGet doc "priceHistory" := by
  intro doc gathered ev hy pd out now nowIso hpd herr h
  unfold merge_updates at h
  rcases except_bind_ok.mp h with ⟨pd', h1, h⟩
  have epd : pd' = pd := by
    rw [hpd] at h1
    exact (Except.ok.inj h1).symm
  rw [epd] at h
  rcases except_bind_ok.mp h with ⟨u1, h2, h⟩
  have e1 : u1 = doc := by
    rw [merge_price_block_err herr] at h2
    exact (Except.ok.inj h2).symm
  rw [e1] at h
  rcases except_bind_ok.mp h with ⟨u2, h3, h⟩
  rcases except_bind_ok.mp h with ⟨u3, h4, h⟩
  rcases except_bind_ok.mp h with ⟨u4, h5, h⟩
  rcases except_bind_ok.mp h with ⟨u5, h6, h⟩
  rcases except_bind_ok.mp h with ⟨u6, h7, h⟩
  rcases except_bind_ok.mp h with ⟨u7, h8, h⟩
  have big : agreesOutside
      ["evidence", "hypotheses", "verdict", "hero", "narrative",
        "date", "_lastRefreshed"] doc out := by
    have f1 : agreesOutside ["evidence", "hypotheses", "verdict", "hero",
        "narrative", "date", "_lastRefreshed"] doc u2 :=
      agreesOutside_mono (by intro k hk; simp at hk; simp [hk])
        (merge_evidence_block_frame h3)
    have f2 : agreesOutside ["evidence", "hypotheses", "verdict", "hero",
        "narrative", "date", "_lastRefreshed"] u2 u3 :=
      agreesOutside_mono
        (by intro k hk; simp at hk; rcases hk with hk | hk <;> simp [hk])
        (merge_hypotheses_block_frame h4)
    have f3 : agreesOutside ["evidence", "hypotheses", "verdict", "hero",
        "narrative", "date", "_lastRefreshed"] u3 u4 :=
      agreesOutside_mono (by intro k hk; simp at hk; simp [hk])
        (merge_hero_block_frame h5)
    have f4 : agreesOutside ["evidence", "hypotheses", "verdict", "hero",
        "narrative", "date", "_lastRefreshed"] u4 u5 :=
      agreesOutside_mono (by intro k hk; simp at hk; simp [hk])
        (merge_narrative_block_frame h6)
    have f5 : agreesOutside ["evidence", "hypotheses", "verdict", "hero",
        "narrative", "date", "_lastRefreshed"] u5 u6 :=
      agreesOutside_mono (by intro k hk; simp at hk; simp [hk])
        (merge_verdict_block_frame h7)
    have f6 : agreesOutside ["evidence", "hypotheses", "verdict", "hero",
        "narrative", "date", "_lastRefreshed"] u6 u7 :=
      agreesOutside_mono (by intro k hk; simp at hk; simp [hk])
        (pySetItem_agrees h8)
    have f7 : agreesOutside ["evidence", "hypotheses", "verdict", "hero",
        "narrative", "date", "_lastRefreshed"] u7 out :=
      agreesOutside_mono (by intro k hk; simp at hk; simp [hk])
        (pySetItem_agrees h)
    exact agreesOutside_trans f1 (agreesOutside_trans f2
      (agreesOutside_trans f3 (agreesOutside_trans f4
        (agreesOutside_trans f5 (agreesOutside_trans f6 f7)))))
  exact ⟨big "price" (by decide), big "currency" (by decide),
    big "heroMetrics" (by decide), big "priceHistory" (by decide)⟩

/-- Claim C5, witness: the statement evaluated on a concrete document with
price fields, an error-marked gather result and nonempty update payloads
that touch other sections. -/
theorem C5_witness :
    jGet (.obj [("price", .str "9.99"), ("currency", .str "A$"),
        ("heroMetrics", .arr [.obj [("label", .str "Price"), ("value", .str "A$9.99")]]),
        ("priceHistory", .arr [.num 9]), ("verdict", .obj [("text", .str "old")]),
        ("date", .str "old"), ("_lastRefreshed", .str "old")]) "price" =
      some (.str "9.99") ∧
    (match merge_updates
        (.obj [("price", .str "9.99"), ("currency", .str "A$"),
          ("heroMetrics", .arr [.obj [("label", .str "Price"), ("value", .str "A$9.99")]]),
          ("priceHistory", .arr [.num 9]), ("verdict", .obj [("text", .str "old")]),
          ("date", .str "old"), ("_lastRefreshed", .str "old")])
        (.obj [("price_data", .obj [("error", .str "timeout")])])
        (.obj [("cards", .arr [])])
        (.obj [("verdict_update", .str "new verdict")])
        "NOW" "ISO" with
      | .ok res => jGet res "price" = some (.str "9.99") ∧
          jGet res "priceHistory" = some (.arr [.num 9])
      | .error _ => False) := by
  constructor
  · rfl
  · have hm := C5_theorem
      (.obj [("price", .str "9.99"), ("currency", .str "A$"),
        ("heroMetrics", .arr [.obj [("label", .str "Price"), ("value", .str "A$9.99")]]),
        ("priceHistory", .arr [.num 9]), ("verdict", .obj [("text", .str "old")]),
        ("date", .str "old"), ("_lastRefreshed", .str "old")])
      (.obj [("price_data", .obj [("error", .str "timeout")])])
      (.obj [("cards", .arr [])])
      (.obj [("verdict_update", .str "new verdict")])
      (.obj [("error", .str "timeout")])
      (.obj [("price", .str "9.99"), ("currency", .str "A$"),
        ("heroMetrics", .arr [.obj [("label", .str "Price"), ("value", .str "A$9.99")]]),
        ("priceHistory", .arr [.num 9]),
        ("verdict", .obj [("text", .str "new verdict")]),
        ("date", .str "NOW"), ("_lastRefreshed", .str "ISO")])
      "NOW" "ISO" rfl rfl rfl
    exact ⟨hm.1.trans rfl, (hm.2.2.2).trans rfl⟩

theorem set_if_truthy_spec {c c' v : JVal} {k : String}
    (h : set_if_truthy c k v = .ok c') :
    (∀ k2, k2 ≠ k → jGet c' k2 = jGet c k2) ∧
    (truthy v = true → jGet c' k = some v) ∧
    (truthy v = false → c' = c) := by
  unfold set_if_truthy at h
  by_cases ht : truthy v = true
  · rw [if_pos ht] at h
    refine ⟨?_, fun _ => pySetItem_jGet_self h, fun hf => absurd ht (by simp [hf])⟩
    intro k2 hk2
    exact pySetItem_agrees h k2 (by simp [hk2])
  · rw [if_neg ht] at h
    have he := (except_pure_ok.mp h)
    subst he
    exact ⟨fun _ _ => rfl, fun htt => absurd htt ht, fun _ => rfl⟩

theorem applyEvidenceCard_nonmaterial {acc uc mc : JVal}
    (hg : pyGetD uc "material_change" .null = .ok mc)
    (hm : truthy mc = false) : applyEvidenceCard acc uc = .ok acc := by
  unfold applyEvidenceCard
  rw [hg, ok_bind, if_neg (by simp [hm])]
  rfl

theorem foldl_applyEvidence_nonmaterial : ∀ (ucs : List JVal) (acc : JVal),
    (∀ uc ∈ ucs, ∃ mc, pyGetD uc "material_change" .null = .ok mc ∧
      truthy mc = false) →
    List.foldlM applyEvidenceCard acc ucs = pure acc := by
  intro ucs
  induction ucs with
  | nil => intro acc _; rfl
  | cons u us ih =>
      intro acc hall
      rcases hall u (by simp) with ⟨mc, hg, hm⟩
      rw [List.foldlM_cons, applyEvidenceCard_nonmaterial hg hm, ok_bind]
      exact ih acc (fun uc huc => hall uc (by simp [huc]))

theorem updFirstCard_nomatch : ∀ (cards : List JVal) (n uf ut : JVal),
    (∀ c ∈ cards, ∃ cn, pyGetD c "number" .null = .ok cn ∧ pyEq cn n = false) →
    updFirstCard cards n uf ut = .ok cards := by
  intro cards
  induction cards with
  | nil => intro n uf ut _; rfl
  | cons c cs ih =>
      intro n uf ut hall
      rcases hall c (by simp) with ⟨cn, hg, hne⟩
      unfold updFirstCard
      rw [hg, ok_bind, if_neg (by simp [hne])]
      rw [ih n uf ut (fun c2 hc2 => hall c2 (by simp [hc2])), ok_bind]
      rfl

theorem updFirstCard_match : ∀ (pre : List JVal) (c : JVal) (post : List JVal)
    (n uf ut : JVal) (l' : List JVal),
    (∀ c2 ∈ pre, ∃ cn, pyGetD c2 "number" .null = .ok cn ∧ pyEq cn n = false) →
    (∃ cn0, pyGetD c "number" .null = .ok cn0 ∧ pyEq cn0 n = true) →
    updFirstCard (pre ++ c :: post) n uf ut = .ok l' →
    ∃ c', l' = pre ++ c' :: post ∧
      (∀ k, k ≠ "finding" → k ≠ "tension" → jGet c' k = jGet c k) ∧
      (truthy uf = true → jGet c' "finding" = some uf) ∧
      (truthy uf = false → jGet c' "finding" = jGet c "finding") ∧
      (truthy ut = true → jGet c' "tension" = some ut) ∧
      (truthy ut = false → jGet c' "tension" = jGet c "tension") := by
  intro pre
  induction pre with
  | nil =>
      intro c post n uf ut l' _ hmatch h
      rcases hmatch with ⟨cn0, hg, heq⟩
      rw [List.nil_append] at h
      unfold updFirstCard at h
      rw [hg, ok_bind, if_pos (by simp [heq])] at h
      rcases except_bind_ok.mp h with ⟨c1, hc1, h⟩
      rcases except_bind_ok.mp h with ⟨c2, hc2, h⟩
      have hl' : l' = c2 :: post := by
        have := except_pure_ok.mp h
        exact this.symm
      rcases set_if_truthy_spec hc1 with ⟨f1, s1t, s1f⟩
      rcases set_if_truthy_spec hc2 with ⟨f2, s2t, s2f⟩
      refine ⟨c2, by simpa using hl', ?_, ?_, ?_, ?_, ?_⟩
      · intro k hkf hkt
        rw [f2 k hkt, f1 k hkf]
      · intro htt
        rw [f2 "finding" (by decide), s1t htt]
      · intro htf
        rw [f2 "finding" (by decide), s1f htf]
      · intro htt
        exact s2t htt
      · intro htf
        rw [s2f htf]
        by_cases huf : truthy uf = true
        · exact f1 "tension" (by decide)
        · rw [s1f (by simpa using huf)]
  | cons p ps ih =>
      intro c post n uf ut l' hpre hmatch h
      rcases hpre p (by simp) with ⟨cn, hg, hne⟩
      rw [List.cons_append] at h
      unfold updFirstCard at h
      rw [hg, ok_bind, if_neg (by simp [hne])] at h
      rcases except_bind_ok.mp h with ⟨rest', hrest, h⟩
      rcases ih c post n uf ut rest'
          (fun c2 hc2 => hpre c2 (by simp [hc2])) hmatch hrest with
        ⟨c', hl', facts⟩
      refine ⟨c', ?_, facts⟩
      have := except_pure_ok.mp h
      rw [← this, hl']
      simp

theorem merge_evidence_block_nonmaterial {d out : JVal} {ucs : List JVal}
    (hall : ∀ uc ∈ ucs, ∃ mc, pyGetD uc "material_change" .null = .ok mc ∧
      truthy mc = false)
    (h : merge_evidence_block d (.obj [("cards", .arr ucs)]) = .ok out) :
    out = d := by
  unfold merge_evidence_block at h
  rw [show pyGetD (.obj [("cards", .arr ucs)]) "cards" (.arr []) =
    .ok (.arr ucs) from rfl, ok_bind] at h
  rcases except_bind_ok.mp h with ⟨evObj, h1, h⟩
  rcases pyGetD_ok.mp h1 with ⟨dfs, rfl, hEvObj⟩
  rcases except_bind_ok.mp h with ⟨cardsV, h2, h⟩
  rcases pyGetD_ok.mp h2 with ⟨efs, hObj, hCardsV⟩
  rw [show pyIterList (.arr ucs) = .ok ucs from rfl, ok_bind] at h
  rw [foldl_applyEvidence_nonmaterial ucs cardsV hall, bind_pure_ok] at h
  cases cardsV with
  | arr xs =>
      by_cases hc : (jGet (JVal.obj dfs) "evidence").isSome ∧ (jGet evObj "cards").isSome
      · rw [if_pos (by simp [hc.1, hc.2])] at h
        have hcards : jlookup efs "cards" = some (.arr xs) := by
          have hs := hc.2
          rw [hObj] at hs
          simp only [jGet] at hs
          rcases Option.isSome_iff_exists.mp hs with ⟨w, hw⟩
          rw [hw] at hCardsV
          simp only [Option.getD_some] at hCardsV
          rw [hw, ← hCardsV]
        have hself : pySetItem evObj "cards" (.arr xs) = .ok evObj := by
          rw [hObj]
          exact pySetItem_self hcards
        rw [hself, ok_bind] at h
        have hev : jlookup dfs "evidence" = some evObj := by
          have hs := hc.1
          simp only [jGet] at hs
          rcases Option.isSome_iff_exists.mp hs with ⟨w, hw⟩
          rw [hw] at hEvObj
          simp only [Option.getD_some] at hEvObj
          rw [hw, hEvObj]
        rw [pySetItem_self hev] at h
        simp at h
        exact h.symm
      · rw [if_neg (by
          intro hcc
          simp only [Bool.and_eq_true] at hcc
          exact hc hcc)] at h
        simp [pure, Except.pure] at h
        exact h.symm
  | null => simp [pure, Except.pure] at h; exact h.symm
  | bool b => simp [pure, Except.pure] at h; exact h.symm
  | num q => simp [pure, Except.pure] at h; exact h.symm
  | str s => simp [pure, Except.pure] at h; exact h.symm
  | obj fs2 => simp [pure, Except.pure] at h; exact h.symm

/-- Claim C7: evidence cards are matched by number; an update card without a
truthy materiality flag changes nothing; an update number matching no
existing card leaves the card list untouched without error; and on a match
only the finding and tension sub-fields are replaced (each only when the
update supplies it) — every other field of the matched card, and every other
card, is preserved verbatim. -/
theorem C7_theorem :
    (∀ (acc uc mc : JVal),
      pyGetD uc "material_change" .null = .ok mc → truthy mc = false →
      applyEvidenceCard acc uc = .ok acc) ∧
    (∀ (cards : List JVal) (n uf ut : JVal),
      (∀ c ∈ cards, ∃ cn, pyGetD c "number" .null = .ok cn ∧
        pyEq cn n = false) →
      updFirstCard cards n uf ut = .ok cards) ∧
    (∀ (pre : List JVal) (c : JVal) (post : List JVal)
        (n uf ut : JVal) (l' : List JVal),
      (∀ c2 ∈ pre, ∃ cn, pyGetD c2 "number" .null = .ok cn ∧
        pyEq cn n = false) →
      (∃ cn0, pyGetD c "number" .null = .ok cn0 ∧ pyEq cn0 n = true) →
      updFirstCard (pre ++ c :: post) n uf ut = .ok l' →
      ∃ c', l' = pre ++ c' :: post ∧
        (∀ k, k ≠ "finding" → k ≠ "tension" → jGet c' k = jGet c k) ∧
        (truthy uf = true → jGet c' "finding" = some uf) ∧
        (truthy uf = false → jGet c' "finding" = jGet c "finding") ∧
        (truthy ut = true → jGet c' "tension" = some ut) ∧
        (truthy ut = false → jGet c' "tension" = jGet c "tension")) ∧
    (∀ (d out : JVal) (ucs : List JVal),
      (∀ uc ∈ ucs, ∃ mc, pyGetD uc "material_change" .null = .ok mc ∧
        truthy mc = false) →
      merge_evidence_block d (.obj [("cards", .arr ucs)]) = .ok out →
      out = d) :=
  ⟨fun _ _ _ hg hm => applyEvidenceCard_nonmaterial hg hm,
   updFirstCard_nomatch,
   updFirstCard_match,
   fun _ _ _ hall h => merge_evidence_block_nonmaterial hall h⟩

/-- Claim C7, witness: the statement evaluated on concrete cards — a
non-material update card, an update number with no matching card, and a
material update replacing only the finding of the matched card. -/
theorem C7_witness :
    applyEvidenceCard (.arr [])
      (.obj [("material_change", .bool false)]) = .ok (.arr []) ∧
    updFirstCard [.obj [("number", .num 1), ("finding", .str "f")]]
      (.num 9) (.str "F2") .null =
      .ok [.obj [("number", .num 1), ("finding", .str "f")]] ∧
    (∃ c', [JVal.obj [("number", .num 1), ("title", .str "t"),
          ("finding", .str "F2"), ("tension", .str "x")]] =
        ([] : List JVal) ++ c' :: [] ∧
      (∀ k, k ≠ "finding" → k ≠ "tension" →
        jGet c' k = jGet (.obj [("number", .num 1), ("title", .str "t"),
          ("finding", .str "f"), ("tension", .str "x")]) k) ∧
      (truthy (.str "F2") = true → jGet c' "finding" = some (.str "F2")) ∧
      (truthy (.str "F2") = false → jGet c' "finding" =
        jGet (.obj [("number", .num 1), ("title", .str "t"),
          ("finding", .str "f"), ("tension", .str "x")]) "finding") ∧
      (truthy JVal.null = true → jGet c' "tension" = some .null) ∧
      (truthy JVal.null = false → jGet c' "tension" =
        jGet (.obj [("number", .num 1), ("title", .str "t"),
          ("finding", .str "f"), ("tension", .str "x")]) "tension")) ∧
    (merge_evidence_block
      (.obj [("evidence", .obj [("cards",
        .arr [.obj [("number", .num 1), ("finding", .str "f")]])])])
      (.obj [("cards", .arr [.obj [("number", .num 1),
        ("material_change", .bool false), ("updated_finding", .str "F2")]])]) =
      .ok (.obj [("evidence", .obj [("cards",
        .arr [.obj [("number", .num 1), ("finding", .str "f")]])])])) := by
  refine ⟨?_, ?_, ?_, ?_⟩
  · exact C7_theorem.1 (.arr []) (.obj [("material_change", .bool false)])
      (.bool false) rfl rfl
  · exact C7_theorem.2.1 [.obj [("number", .num 1), ("finding", .str "f")]]
      (.num 9) (.str "F2") .null
      (by
        intro c hc
        simp at hc
        subst hc
        exact ⟨.num 1, rfl, by decide⟩)
  · exact C7_theorem.2.2.1 [] (.obj [("number", .num 1), ("title", .str "t"),
        ("finding", .str "f"), ("tension", .str "x")]) []
      (.num 1) (.str "F2") .null
      [.obj [("number", .num 1), ("title", .str "t"),
        ("finding", .str "F2"), ("tension", .str "x")]]
      (by intro c2 hc2; simp at hc2)
      ⟨.num 1, rfl, rfl⟩
      rfl
  · have hres := C7_theorem.2.2.2
      (.obj [("evidence", .obj [("cards",
        .arr [.obj [("number", .num 1), ("finding", .str "f")]])])])
      (.obj [("evidence", .obj [("cards",
        .arr [.obj [("number", .num 1), ("finding", .str "f")]])])])
      [.obj [("number", .num 1), ("material_change", .bool false),
        ("updated_finding", .str "F2")]]
      (by
        intro uc huc
        simp at huc
        subst huc
        exact ⟨.bool false, rfl, rfl⟩)
    have hcomp : merge_evidence_block
        (.obj [("evidence", .obj [("cards",
          .arr [.obj [("number", .num 1), ("finding", .str "f")]])])])
        (.obj [("cards", .arr [.obj [("number", .num 1),
          ("material_change", .bool false), ("updated_finding", .str "F2")]])]) =
        .ok (.obj [("evidence", .obj [("cards",
          .arr [.obj [("number", .num 1), ("finding", .str "f")]])])]) := rfl
    exact hcomp

/-- Claim C4, counterexample: merging a document whose verdict score row for
tier n1 carries dirArrow &uarr; with a synthesis update that names tier n1
but supplies no direction key still rewrites the row's direction pair to the
steady defaults (&rarr; / Steady), so the derived direction-arrow/label pair
is not updated only when the update entry supplies it. -/
theorem C4_counterexample :
    jGet (.obj [("tier", .str "n1")]) "direction" = none ∧
    (jFirst (jGetPath
        (.obj [("hypotheses", .arr [.obj [("tier", .str "n1"), ("score", .str "40%")]]),
          ("verdict", .obj [("scores", .arr [.obj [("label", .str "N1 base"),
            ("score", .str "40%"), ("dirArrow", .str "&uarr;"),
            ("dirText", .str "Rising")]]), ("text", .str "v")])])
        ["verdict", "scores"])).bind (fun v => jGet v "dirArrow") =
      some (.str "&uarr;") ∧
    merge_updates
      (.obj [("hypotheses", .arr [.obj [("tier", .str "n1"), ("score", .str "40%")]]),
        ("verdict", .obj [("scores", .arr [.obj [("label", .str "N1 base"),
          ("score", .str "40%"), ("dirArrow", .str "&uarr;"),
          ("dirText", .str "Rising")]]), ("text", .str "v")])])
      (.obj [("price_data", .obj [("error", .str "x")])])
      (.obj []) (.obj [("hypotheses", .arr [.obj [("tier", .str "n1")]])])
      "NOW" "ISO" =
      .ok (.obj [("hypotheses", .arr [.obj [("tier", .str "n1"), ("score", .str "40%")]]),
        ("verdict", .obj [("scores", .arr [.obj [("label", .str "N1 base"),
          ("score", .str "40%"), ("dirArrow", .str "&rarr;"),
          ("dirText", .str "Steady")]]), ("text", .str "v")]),
        ("date", .str "NOW"), ("_lastRefreshed", .str "ISO")]) ∧
    (jFirst (jGetPath
        (.obj [("hypotheses", .arr [.obj [("tier", .str "n1"), ("score", .str "40%")]]),
          ("verdict", .obj [("scores", .arr [.obj [("label", .str "N1 base"),
            ("score", .str "40%"), ("dirArrow", .str "&rarr;"),
            ("dirText", .str "Steady")]]), ("text", .str "v")]),
          ("date", .str "NOW"), ("_lastRefreshed", .str "ISO")])
        ["verdict", "scores"])).bind (fun v => jGet v "dirArrow") =
      some (.str "&rarr;") ∧
    ("&uarr;" : String) ≠ "&rarr;" :=
  ⟨rfl, rfl, rfl, rfl, by decide⟩

/-- Claim C4, amended: hypothesis entries are matched by tier key
case-insensitively; score, score-display and description are updated only
when the update supplies them; entries with no matching update and update
tiers absent from the document are left untouched (never inserted); but on
every tier match the verdict row's direction-arrow/label pair is rewritten,
defaulting to the steady pair when no direction is supplied. The claim's
concrete example holds: with hypotheses T1 40 percent and T2 60 percent and
an update giving T1 updated_score 55 percent, the merged document has
T1.score 55 percent (and scoreWidth likewise) while T2.score stays
60 percent. -/
theorem C4_theorem :
    (merge_updates
      (.obj [("hypotheses", .arr
        [.obj [("tier", .str "T1"), ("score", .str "40%")],
         .obj [("tier", .str "T2"), ("score", .str "60%")]])])
      (.obj [("price_data", .obj [("error", .str "x")])])
      (.obj [])
      (.obj [("hypotheses", .arr [.obj [("tier", .str "T1"),
        ("updated_score", .str "55%")]])])
      "NOW" "ISO" =
      .ok (.obj [("hypotheses", .arr
        [.obj [("tier", .str "T1"), ("score", .str "55%"), ("scoreWidth", .str "55%")],
         .obj [("tier", .str "T2"), ("score", .str "60%")]]),
        ("date", .str "NOW"), ("_lastRefreshed", .str "ISO")]) ∧
      (match jGetPath (.obj [("hypotheses", .arr
          [.obj [("tier", .str "T1"), ("score", .str "55%"), ("scoreWidth", .str "55%")],
           .obj [("tier", .str "T2"), ("score", .str "60%")]]),
          ("date", .str "NOW"), ("_lastRefreshed", .str "ISO")]) ["hypotheses"] with
        | some (.arr [h1, h2]) =>
            jGet h1 "score" = some (.str "55%") ∧ jGet h2 "score" = some (.str "60%")
        | _ => False)) ∧
    (∀ (tD tU : String) (s0 : JVal), strLower tD = strLower tU →
      applyHypothesisUpdate
        (.obj [("hypotheses", .arr [.obj [("tier", .str tD), ("score", s0)]])])
        (.obj [("tier", .str tU)]) =
      .ok (.obj [("hypotheses", .arr [.obj [("tier", .str tD), ("score", s0)]])])) ∧
    (∀ (tD tU : String) (s0 : JVal), strLower tD = strLower tU →
      applyHypothesisUpdate
        (.obj [("hypotheses", .arr [.obj [("tier", .str tD), ("score", s0)]])])
        (.obj [("tier", .str tU), ("updated_score", .str "55%")]) =
      .ok (.obj [("hypotheses", .arr [.obj [("tier", .str tD),
        ("score", .str "55%"), ("scoreWidth", .str "55%")]])])) ∧
    (∀ (tD tU : String) (s0 : JVal), strLower tD ≠ strLower tU →
      applyHypothesisUpdate
        (.obj [("hypotheses", .arr [.obj [("tier", .str tD), ("score", s0)]])])
        (.obj [("tier", .str tU), ("updated_score", .str "55%")]) =
      .ok (.obj [("hypotheses", .arr [.obj [("tier", .str tD), ("score", s0)]])])) := by
  refine ⟨⟨rfl, ⟨rfl, rfl⟩⟩, ?_, ?_, ?_⟩
  · intro tD tU s0 heq
    have hscan : scanHypList [.obj [("tier", .str tD), ("score", s0)]]
        (strLower tU) .null .null =
        .ok (some [.obj [("tier", .str tD), ("score", s0)]]) := by
      unfold scanHypList
      rw [show pyGetD (JVal.obj [("tier", .str tD), ("score", s0)]) "tier" (.str "") =
        .ok (.str tD) from rfl, ok_bind,
        show pyLower (.str tD) = .ok (strLower tD) from rfl, ok_bind, if_pos heq]
      rfl
    unfold applyHypothesisUpdate
    simp only [show pyGetD (JVal.obj [("tier", JVal.str tU)]) "tier" (.str "") =
        .ok (.str tU) from rfl,
      show pyLower (.str tU) = .ok (strLower tU) from rfl,
      show pyGetD (JVal.obj [("hypotheses",
          JVal.arr [JVal.obj [("tier", JVal.str tD), ("score", s0)]])])
          "hypotheses" (.arr []) =
        .ok (.arr [JVal.obj [("tier", JVal.str tD), ("score", s0)]]) from rfl,
      show pyGetD (JVal.obj [("tier", JVal.str tU)]) "updated_score" .null =
        .ok .null from rfl,
      show pyGetD (JVal.obj [("tier", JVal.str tU)]) "updated_description" .null =
        .ok .null from rfl,
      hscan, ok_bind]
    rfl
  · intro tD tU s0 heq
    have hscan : scanHypList [.obj [("tier", .str tD), ("score", s0)]]
        (strLower tU) (.str "55%") .null =
        .ok (some [.obj [("tier", .str tD), ("score", .str "55%"),
          ("scoreWidth", .str "55%")]]) := by
      unfold scanHypList
      rw [show pyGetD (JVal.obj [("tier", .str tD), ("score", s0)]) "tier" (.str "") =
        .ok (.str tD) from rfl, ok_bind,
        show pyLower (.str tD) = .ok (strLower tD) from rfl, ok_bind, if_pos heq]
      rfl
    unfold applyHypothesisUpdate
    simp only [show pyGetD (JVal.obj [("tier", JVal.str tU),
        ("updated_score", JVal.str "55%")]) "tier" (.str "") = .ok (.str tU) from rfl,
      show pyLower (.str tU) = .ok (strLower tU) from rfl,
      show pyGetD (JVal.obj [("hypotheses",
          JVal.arr [JVal.obj [("tier", JVal.str tD), ("score", s0)]])])
          "hypotheses" (.arr []) =
        .ok (.arr [JVal.obj [("tier", JVal.str tD), ("score", s0)]]) from rfl,
      show pyGetD (JVal.obj [("tier", JVal.str tU),
          ("updated_score", JVal.str "55%")]) "updated_score" .null =
        .ok (.str "55%") from rfl,
      show pyGetD (JVal.obj [("tier", JVal.str tU),
          ("updated_score", JVal.str "55%")]) "updated_description" .null =
        .ok .null from rfl,
      hscan, ok_bind]
    rfl
  · intro tD tU s0 hne
    have hscan : scanHypList [.obj [("tier", .str tD), ("score", s0)]]
        (strLower tU) (.str "55%") .null = .ok none := by
      unfold scanHypList
      rw [show pyGetD (JVal.obj [("tier", .str tD), ("score", s0)]) "tier" (.str "") =
        .ok (.str tD) from rfl, ok_bind,
        show pyLower (.str tD) = .ok (strLower tD) from rfl, ok_bind, if_neg hne]
      rfl
    unfold applyHypothesisUpdate
    simp only [show pyGetD (JVal.obj [("tier", JVal.str tU),
        ("updated_score", JVal.str "55%")]) "tier" (.str "") = .ok (.str tU) from rfl,
      show pyLower (.str tU) = .ok (strLower tU) from rfl,
      show pyGetD (JVal.obj [("hypotheses",
          JVal.arr [JVal.obj [("tier", JVal.str tD), ("score", s0)]])])
          "hypotheses" (.arr []) =
        .ok (.arr [JVal.obj [("tier", JVal.str tD), ("score", s0)]]) from rfl,
      show pyGetD (JVal.obj [("tier", JVal.str tU),
          ("updated_score", JVal.str "55%")]) "updated_score" .null =
        .ok (.str "55%") from rfl,
      show pyGetD (JVal.obj [("tier", JVal.str tU),
          ("updated_score", JVal.str "55%")]) "updated_description" .null =
        .ok .null from rfl,
      hscan, ok_bind]
    rfl

/-- Claim C4, witness: the amended statement evaluated on concrete tiers —
an uppercase document tier matched by a lowercase update tier, with and
without a supplied score, and a mismatched tier left untouched. -/
theorem C4_witness :
    applyHypothesisUpdate
      (.obj [("hypotheses", .arr [.obj [("tier", .str "N1"), ("score", .str "40%")]])])
      (.obj [("tier", .str "n1")]) =
      .ok (.obj [("hypotheses", .arr
        [.obj [("tier", .str "N1"), ("score", .str "40%")]])]) ∧
    applyHypothesisUpdate
      (.obj [("hypotheses", .arr [.obj [("tier", .str "N1"), ("score", .str "40%")]])])
      (.obj [("tier", .str "n1"), ("updated_score", .str "55%")]) =
      .ok (.obj [("hypotheses", .arr [.obj [("tier", .str "N1"),
        ("score", .str "55%"), ("scoreWidth", .str "55%")]])]) ∧
    applyHypothesisUpdate
      (.obj [("hypotheses", .arr [.obj [("tier", .str "N1"), ("score", .str "40%")]])])
      (.obj [("tier", .str "t9"), ("updated_score", .str "55%")]) =
      .ok (.obj [("hypotheses", .arr
        [.obj [("tier", .str "N1"), ("score", .str "40%")]])]) :=
  ⟨ C4_theorem.2.1 "N1" "n1" (.str "40%") (by decide),
   C4_theorem.2.2.1 "N1" "n1" (.str "40%") (by decide),
   C4_theorem.2.2.2 "N1" "t9" (.str "40%") (by decide)⟩
